import Mathlib

/-!
# Multiverse32: the Win32 emulation runtime of `win32_compat.cpp`

A shallow embedding of the non-Windows branch of `src/win32_compat.cpp`
(declarations from `src/win32_compat.h`).

* The process-global statics `g_windows`, `g_deviceContexts`, `g_windowClasses`,
  `g_nextWindowHandle`, `g_nextDCHandle`, `g_messageQueue`, `g_quitPosted` become the
  fields of `State`; every entry point is a function from its arguments and a `State`
  to its result and the next `State`.
* `std::map` with pointer keys is `KMap`: a list of entries strictly increasing in the
  key, so that `begin()` is the numerically smallest key.
* Handles and pointers are natural numbers, `0` being the null pointer; `uintptr_t`
  arithmetic is taken modulo `2 ^ 64`, `int` values are integers, wrapped to 32 bits
  where the code computes with them.
* A pointer argument that the code tests against null is an `Option`; an out-parameter
  is passed in with its current contents and handed back with the result.
* The per-platform helpers (`CreatePlatformWindow`, ...) never touch the statics; the
  calls made to them are recorded, in order, in `State.platformCalls`, and the two that
  return a pointer take their result from a `Platform`. The idle `usleep` of
  `GetMessage` is real time and is not modelled.
* A window procedure is a function pointer (a number, `0` for `nullptr`); what the
  pointed-to function does is given by a table of `Prog`s, programs whose only
  effects are calls of this API.
-/

namespace Win32

/-! ## Types and constants of `win32_compat.h` -/

abbrev HWND := Nat
abbrev HDC := Nat
abbrev HINSTANCE := Nat
abbrev HBRUSH := Nat
abbrev UINT := Nat
abbrev DWORD := Nat
abbrev WPARAM := Nat
abbrev LPARAM := Int
abbrev LRESULT := Int
abbrev BOOL := Int
/-- A window procedure pointer `LRESULT (*)(HWND, UINT, WPARAM, LPARAM)`; `0` is `nullptr`. -/
abbrev WNDPROC := Nat

def TRUE : BOOL := 1
def FALSE : BOOL := 0

def WM_PAINT : UINT := 0x000F
def WM_CLOSE : UINT := 0x0010
def WM_DESTROY : UINT := 0x0002
def WM_QUIT : UINT := 0x0012
def DT_SINGLELINE : UINT := 0x00000020
def DT_CENTER : UINT := 0x00000001
def DT_VCENTER : UINT := 0x00000004

/-- Number of bits of `uintptr_t` (and of `WPARAM`). -/
def PTR_BITS : Nat := 64

/-- The value an `int` expression takes after two's-complement wrap-around to 32 bits. -/
def toInt32 (z : Int) : Int := (z + 2 ^ 31) % 2 ^ 32 - 2 ^ 31

/-- Conversion of a signed value to `uintptr_t`, as in `msg.wParam = nExitCode`. -/
def toUIntPtr (z : Int) : Nat := (z % 2 ^ PTR_BITS).toNat

/-- The cast `(int)msg.wParam`. -/
def wParamToInt (w : WPARAM) : Int := toInt32 (w : Int)

/-- Post-increment of a `uintptr_t` counter: the value it holds afterwards. -/
def nextHandle (n : Nat) : Nat := (n + 1) % 2 ^ PTR_BITS

structure RECT where
  left : Int
  top : Int
  right : Int
  bottom : Int
  deriving DecidableEq, Repr

structure PAINTSTRUCT where
  hdc : HDC
  fErase : BOOL
  rcPaint : RECT
  fRestore : BOOL
  fIncUpdate : BOOL
  rgbReserved : List Nat
  deriving DecidableEq, Repr

structure MSG where
  hwnd : HWND
  message : UINT
  wParam : WPARAM
  lParam : LPARAM
  time : DWORD
  pt_x : Int
  pt_y : Int
  deriving DecidableEq, Repr

/-- The value of `MSG msg = {};`. -/
def MSG.zero : MSG :=
  { hwnd := 0, message := 0, wParam := 0, lParam := 0, time := 0, pt_x := 0, pt_y := 0 }

structure WNDCLASSEX where
  cbSize : UINT
  style : UINT
  lpfnWndProc : WNDPROC
  cbClsExtra : Int
  cbWndExtra : Int
  hInstance : HINSTANCE
  hIcon : Nat
  hCursor : Nat
  hbrBackground : HBRUSH
  lpszMenuName : Option String
  lpszClassName : Option String
  hIconSm : Nat
  deriving DecidableEq, Repr

/-! ## Internal structures of `win32_compat.cpp` -/

structure WindowData where
  title : String
  x : Int
  y : Int
  width : Int
  height : Int
  visible : Bool
  wndProc : WNDPROC
  platformWindow : Nat
  deriving DecidableEq, Repr

structure DeviceContext where
  window : HWND
  platformContext : Nat
  deriving DecidableEq, Repr

/-- A call of one of the platform helpers declared at the top of `win32_compat.cpp`. -/
inductive PlatformCall where
  | CreatePlatformWindow (title : String) (x y width height : Int)
  | ShowPlatformWindow (window : Nat)
  | DestroyPlatformWindow (window : Nat)
  | BeginPlatformPaint (window : Nat)
  | EndPlatformPaint (window : Nat) (context : Nat)
  | DrawPlatformText (context : Nat) (text : String) (x y : Int)
  | InvalidatePlatformWindow (window : Nat)
  | ProcessPlatformEvents
  deriving DecidableEq, Repr

/-- What the two pointer-returning platform helpers return, given the helper calls made
so far and their arguments. -/
structure Platform where
  CreatePlatformWindow : List PlatformCall → String → Int → Int → Int → Int → Nat
  BeginPlatformPaint : List PlatformCall → Nat → Nat

/-- The helpers of the final `#else` branch ("other platforms"). -/
def stubPlatform : Platform :=
  { CreatePlatformWindow := fun _ _ _ _ _ _ => 9999
    BeginPlatformPaint := fun _ _ => 1 }

/-! ## `std::map` keyed by a pointer -/

/-- Entries in strictly increasing key order. -/
def KMap (α : Type) : Type :=
  { l : List (Nat × α) // l.Pairwise (fun a b => a.1 < b.1) }

namespace KMap

variable {α : Type}

instance [DecidableEq α] : DecidableEq (KMap α) :=
  fun a b => decidable_of_iff (a.1 = b.1) Subtype.ext_iff.symm

def findRaw (k : Nat) : List (Nat × α) → Option α
  | [] => none
  | e :: t => if e.1 = k then some e.2 else findRaw k t

def insertRaw (k : Nat) (v : α) : List (Nat × α) → List (Nat × α)
  | [] => [(k, v)]
  | e :: t =>
    if k < e.1 then (k, v) :: e :: t
    else if k = e.1 then (k, v) :: t
    else e :: insertRaw k v t

def eraseRaw (k : Nat) (l : List (Nat × α)) : List (Nat × α) :=
  l.filter (fun e => decide (e.1 ≠ k))

/-- The empty map. -/
def empty : KMap α := ⟨[], List.Pairwise.nil⟩

/-- The map's `find(k)`: `none` stands for `end()`. -/
def find (m : KMap α) (k : Nat) : Option α := findRaw k m.1

/-- Whether `find(k) != end()`. -/
def contains (m : KMap α) (k : Nat) : Bool := (m.find k).isSome

/-- The keys, in iteration order. -/
def keys (m : KMap α) : List Nat := m.1.map Prod.fst

/-- The map's `empty()`. -/
def isEmpty (m : KMap α) : Bool := m.1.isEmpty

/-- The key of `begin()`, when the map is not empty. -/
def first (m : KMap α) : Option Nat := m.1.head?.map Prod.fst

/-- The assignment `m[k] = v`. -/
def insert (m : KMap α) (k : Nat) (v : α) : KMap α :=
  ⟨insertRaw k v m.1, by
    have hmem : ∀ (l : List (Nat × α)) (x : Nat × α),
        x ∈ insertRaw k v l → x = (k, v) ∨ x ∈ l := by
      intro l
      induction l with
      | nil =>
        intro x hx
        simp only [insertRaw, List.mem_singleton] at hx
        exact Or.inl hx
      | cons e t ih =>
        intro x hx
        simp only [insertRaw] at hx
        split at hx
        · rcases List.mem_cons.1 hx with h | h
          · exact Or.inl h
          · exact Or.inr h
        · split at hx
          · rcases List.mem_cons.1 hx with h | h
            · exact Or.inl h
            · exact Or.inr (List.mem_cons_of_mem _ h)
          · rcases List.mem_cons.1 hx with h | h
            · exact Or.inr (h ▸ List.mem_cons_self _ _)
            · rcases ih x h with h1 | h1
              · exact Or.inl h1
              · exact Or.inr (List.mem_cons_of_mem _ h1)
    have hs : ∀ l : List (Nat × α), l.Pairwise (fun a b => a.1 < b.1) →
        (insertRaw k v l).Pairwise (fun a b => a.1 < b.1) := by
      intro l
      induction l with
      | nil => intro _; simp [insertRaw]
      | cons e t ih =>
        intro hl
        have hl1 := (List.pairwise_cons.1 hl).1
        have hl2 := (List.pairwise_cons.1 hl).2
        simp only [insertRaw]
        split
        · rename_i hlt
          refine List.pairwise_cons.2 ⟨?_, hl⟩
          intro a ha
          rcases List.mem_cons.1 ha with h | h
          · rw [h]; exact hlt
          · exact Nat.lt_trans hlt (hl1 a h)
        · split
          · rename_i _ heq
            refine List.pairwise_cons.2 ⟨?_, hl2⟩
            intro a ha
            show k < a.1
            rw [heq]
            exact hl1 a ha
          · rename_i hnlt hne
            refine List.pairwise_cons.2 ⟨?_, ih hl2⟩
            intro a ha
            rcases hmem t a ha with h | h
            · rw [h]
              show e.1 < k
              omega
            · exact hl1 a h
    exact hs m.1 m.2⟩

/-- The map's `erase` of the entry with key `k`. -/
def erase (m : KMap α) (k : Nat) : KMap α :=
  ⟨eraseRaw k m.1, List.Pairwise.filter _ m.2⟩

end KMap

/-! ## `std::map<std::string, WNDPROC>` -/

def classFind (name : String) : List (String × WNDPROC) → Option WNDPROC
  | [] => none
  | e :: t => if e.1 = name then some e.2 else classFind name t

/-- The assignment `g_windowClasses[name] = proc`. -/
def classAssign (name : String) (proc : WNDPROC) : List (String × WNDPROC) → List (String × WNDPROC)
  | [] => [(name, proc)]
  | e :: t => if e.1 = name then (name, proc) :: t else e :: classAssign name proc t

/-! ## Global state -/

structure State where
  g_windows : KMap WindowData
  g_deviceContexts : KMap DeviceContext
  g_windowClasses : List (String × WNDPROC)
  g_nextWindowHandle : Nat
  g_nextDCHandle : Nat
  g_messageQueue : List MSG
  g_quitPosted : Bool
  /-- Calls of the platform helpers made so far, oldest first. -/
  platformCalls : List PlatformCall
  deriving DecidableEq

/-- The statics as initialised at program start. -/
def State.init : State :=
  { g_windows := KMap.empty
    g_deviceContexts := KMap.empty
    g_windowClasses := []
    g_nextWindowHandle := 1
    g_nextDCHandle := 1
    g_messageQueue := []
    g_quitPosted := false
    platformCalls := [] }

/-- The message `MSG msg = {}; msg.hwnd = hWnd; msg.message = WM_PAINT;`. -/
def paintMessage (hWnd : HWND) : MSG := { MSG.zero with hwnd := hWnd, message := WM_PAINT }

/-- The message `MSG msg = {}; msg.message = WM_QUIT; msg.wParam = nExitCode;`. -/
def quitMessage (nExitCode : Int) : MSG :=
  { MSG.zero with message := WM_QUIT, wParam := toUIntPtr nExitCode }

/-! ## Win32 API implementations -/

/-- The class name is a string: the code converts `lpClassName` to a `std::string` for the
look-up, which is undefined for a null pointer. The title may be null. -/
def CreateWindowEx (P : Platform) (dwExStyle : DWORD) (lpClassName : String)
    (lpWindowName : Option String) (dwStyle : DWORD) (X Y nWidth nHeight : Int)
    (hWndParent : HWND) (hMenu : Nat) (hInstance : HINSTANCE) (lpParam : Nat)
    (s : State) : HWND × State :=
  let _unused := (dwExStyle, dwStyle, hWndParent, hMenu, hInstance, lpParam)
  let hwnd : HWND := s.g_nextWindowHandle
  let title : String := match lpWindowName with
    | some t => t
    | none => ""
  -- Find window procedure
  let wndProc : WNDPROC := match classFind lpClassName s.g_windowClasses with
    | some proc => proc
    | none => 0
  -- Create platform-specific window
  let platformWindow := P.CreatePlatformWindow s.platformCalls title X Y nWidth nHeight
  let windowData : WindowData :=
    { title := title, x := X, y := Y, width := nWidth, height := nHeight, visible := false,
      wndProc := wndProc, platformWindow := platformWindow }
  (hwnd,
   { s with
     g_nextWindowHandle := nextHandle s.g_nextWindowHandle
     g_windows := s.g_windows.insert hwnd windowData
     platformCalls :=
       s.platformCalls ++ [PlatformCall.CreatePlatformWindow title X Y nWidth nHeight] })

def ShowWindow (hWnd : HWND) (nCmdShow : Int) (s : State) : BOOL × State :=
  match s.g_windows.find hWnd with
  | some w =>
    let visible : Bool := decide (nCmdShow ≠ 0)
    (TRUE,
     { s with
       g_windows := s.g_windows.insert hWnd { w with visible := visible }
       platformCalls :=
         if visible then s.platformCalls ++ [PlatformCall.ShowPlatformWindow w.platformWindow]
         else s.platformCalls })
  | none => (FALSE, s)

def UpdateWindow (hWnd : HWND) (s : State) : BOOL × State :=
  -- Send WM_PAINT message
  (TRUE, { s with g_messageQueue := s.g_messageQueue ++ [paintMessage hWnd] })

def DestroyWindow (hWnd : HWND) (s : State) : BOOL × State :=
  match s.g_windows.find hWnd with
  | some w =>
    (TRUE,
     { s with
       g_windows := s.g_windows.erase hWnd
       platformCalls := s.platformCalls ++ [PlatformCall.DestroyPlatformWindow w.platformWindow] })
  | none => (FALSE, s)

def InvalidateRect (hWnd : HWND) (lpRect : Option RECT) (bErase : BOOL) (s : State) :
    BOOL × State :=
  let _unused := (lpRect, bErase)
  match s.g_windows.find hWnd with
  | some w =>
    -- Queue a paint message
    (TRUE,
     { s with
       g_messageQueue := s.g_messageQueue ++ [paintMessage hWnd]
       platformCalls :=
         s.platformCalls ++ [PlatformCall.InvalidatePlatformWindow w.platformWindow] })
  | none => (FALSE, s)

/-- The rectangle is an out-parameter: `lpRect` is `none` for a null pointer, and the
second component of the result is what the pointed-to rectangle holds afterwards. -/
def GetClientRect (hWnd : HWND) (lpRect : Option RECT) (s : State) :
    BOOL × Option RECT × State :=
  match s.g_windows.find hWnd, lpRect with
  | some w, some _ =>
    (TRUE, some { left := 0, top := 0, right := w.width, bottom := w.height }, s)
  | _, _ => (FALSE, lpRect, s)

def SetWindowText (hWnd : HWND) (lpString : Option String) (s : State) : BOOL × State :=
  match s.g_windows.find hWnd with
  | some w =>
    let title : String := match lpString with
      | some t => t
      | none => ""
    (TRUE, { s with g_windows := s.g_windows.insert hWnd { w with title := title } })
  | none => (FALSE, s)

def GetModuleHandle (lpModuleName : Option String) : HINSTANCE :=
  let _unused := lpModuleName
  1

def LoadCursor (hInstance : HINSTANCE) (lpCursorName : Nat) : Nat :=
  let _unused := (hInstance, lpCursorName)
  1

def RegisterClassEx (lpWndClass : Option WNDCLASSEX) (s : State) : BOOL × State :=
  match lpWndClass with
  | some wc =>
    match wc.lpszClassName with
    | some name =>
      (TRUE, { s with g_windowClasses := classAssign name wc.lpfnWndProc s.g_windowClasses })
    | none => (FALSE, s)
  | none => (FALSE, s)

/-- The message is an out-parameter: `lpMsg` is what the caller's `MSG` holds before the
call and the second component of the result what it holds afterwards. -/
def GetMessage (lpMsg : MSG) (hWnd : HWND) (wMsgFilterMin wMsgFilterMax : UINT) (s : State) :
    BOOL × MSG × State :=
  let _unused := (hWnd, wMsgFilterMin, wMsgFilterMax)
  if s.g_quitPosted then (FALSE, lpMsg, s)
  else
    -- Process platform-specific events
    let s1 : State := { s with platformCalls := s.platformCalls ++ [PlatformCall.ProcessPlatformEvents] }
    match s1.g_messageQueue with
    | front :: rest => (TRUE, front, { s1 with g_messageQueue := rest })
    | [] =>
      -- Create a synthetic paint message to keep the loop alive
      match s1.g_windows.first with
      | some firstWindow =>
        (TRUE, lpMsg, { s1 with g_messageQueue := s1.g_messageQueue ++ [paintMessage firstWindow] })
      | none => (TRUE, lpMsg, s1)

def TranslateMessage (lpMsg : Option MSG) : BOOL :=
  let _unused := lpMsg
  TRUE

/-- The call `it->second->wndProc(...)` is made through `invoke`, which is given the
function pointer and the four arguments; its result is `none` when the called procedure
does not return. -/
def DispatchMessage (invoke : WNDPROC → HWND → UINT → WPARAM → LPARAM → State → Option LRESULT × State)
    (lpMsg : Option MSG) (s : State) : Option LRESULT × State :=
  match lpMsg with
  | some msg =>
    if msg.hwnd ≠ 0 then
      match s.g_windows.find msg.hwnd with
      | some w =>
        if w.wndProc ≠ 0 then invoke w.wndProc msg.hwnd msg.message msg.wParam msg.lParam s
        else (some 0, s)
      | none => (some 0, s)
    else (some 0, s)
  | none => (some 0, s)

def PostQuitMessage (nExitCode : Int) (s : State) : State :=
  { s with g_quitPosted := true, g_messageQueue := s.g_messageQueue ++ [quitMessage nExitCode] }

/-- The paint structure is an out-parameter, passed and returned like the rectangle of
`GetClientRect`. -/
def BeginPaint (P : Platform) (hWnd : HWND) (lpPaint : Option PAINTSTRUCT) (s : State) :
    HDC × Option PAINTSTRUCT × State :=
  match s.g_windows.find hWnd with
  | some w =>
    let hdc : HDC := s.g_nextDCHandle
    let dc : DeviceContext :=
      { window := hWnd, platformContext := P.BeginPlatformPaint s.platformCalls w.platformWindow }
    let s1 : State :=
      { s with
        g_nextDCHandle := nextHandle s.g_nextDCHandle
        g_deviceContexts := s.g_deviceContexts.insert hdc dc
        platformCalls := s.platformCalls ++ [PlatformCall.BeginPlatformPaint w.platformWindow] }
    match lpPaint with
    | some ps =>
      let rc := (GetClientRect hWnd (some ps.rcPaint) s1).2.1
      let rcPaint : RECT := match rc with
        | some r => r
        | none => ps.rcPaint
      (hdc, some { ps with hdc := hdc, fErase := FALSE, rcPaint := rcPaint }, s1)
    | none => (hdc, none, s1)
  | none => (0, lpPaint, s)

def EndPaint (hWnd : HWND) (lpPaint : Option PAINTSTRUCT) (s : State) : BOOL × State :=
  match lpPaint with
  | some ps =>
    if ps.hdc ≠ 0 then
      match s.g_deviceContexts.find ps.hdc with
      | some dc =>
        (TRUE,
         { s with
           g_deviceContexts := s.g_deviceContexts.erase ps.hdc
           platformCalls :=
             match s.g_windows.find hWnd with
             | some w =>
               s.platformCalls ++ [PlatformCall.EndPlatformPaint w.platformWindow dc.platformContext]
             | none => s.platformCalls })
      | none => (FALSE, s)
    else (FALSE, s)
  | none => (FALSE, s)

/-- The first `len` characters of the text, as `std::string text(lpchText, len)` takes
them; a character stands for one `char`. The code reads outside the buffer when `len` is
not between 0 and the length of the text; here the text is then cut at its end (at its
start for a negative `len`). -/
def takeText (lpchText : String) (len : Int) : String :=
  String.mk (lpchText.data.take len.toNat)

/-- The anchor is computed in `int`, each operation wrapped to 32 bits; `/` is the
truncating division of C. -/
def DrawText (hdc : HDC) (lpchText : Option String) (cchText : Int) (lpRect : Option RECT)
    (format : UINT) (s : State) : Int × State :=
  match s.g_deviceContexts.find hdc, lpchText, lpRect with
  | some dc, some txt, some rect =>
    let len : Int := if cchText = -1 then toInt32 (txt.length : Int) else cchText
    let text := takeText txt len
    let x : Int :=
      if format &&& DT_CENTER ≠ 0 then toInt32 (rect.left + Int.tdiv (toInt32 (rect.right - rect.left)) 2)
      else rect.left
    let y : Int :=
      if format &&& DT_VCENTER ≠ 0 then toInt32 (rect.top + Int.tdiv (toInt32 (rect.bottom - rect.top)) 2)
      else rect.top
    (len,
     { s with
       platformCalls := s.platformCalls ++ [PlatformCall.DrawPlatformText dc.platformContext text x y] })
  | _, _, _ => (0, s)

def TextOut (hdc : HDC) (x y : Int) (lpString : Option String) (c : Int) (s : State) :
    BOOL × State :=
  match s.g_deviceContexts.find hdc, lpString with
  | some dc, some str =>
    let len : Int := if c = -1 then toInt32 (str.length : Int) else c
    (TRUE,
     { s with
       platformCalls :=
         s.platformCalls ++ [PlatformCall.DrawPlatformText dc.platformContext (takeText str len) x y] })
  | _, _ => (FALSE, s)

def SetTextColor (hdc : HDC) (color : DWORD) : DWORD :=
  let _unused := (hdc, color)
  0

def SetBkMode (hdc : HDC) (mode : Int) : Int :=
  let _unused := (hdc, mode)
  0

def DefWindowProc (hWnd : HWND) (Msg : UINT) (wParam : WPARAM) (lParam : LPARAM) : LRESULT :=
  let _unused := (hWnd, Msg, wParam, lParam)
  0

/-! ## Programs over the API

The caller of the API (`WinMain`) and the window procedures it registers are programs
whose only effects are calls of the entry points above. -/

/-- A call of an entry point, with its arguments. -/
inductive Call where
  | RegisterClassEx (lpWndClass : Option WNDCLASSEX)
  | CreateWindowEx (dwExStyle : DWORD) (lpClassName : String) (lpWindowName : Option String)
      (dwStyle : DWORD) (X Y nWidth nHeight : Int) (hWndParent : HWND) (hMenu : Nat)
      (hInstance : HINSTANCE) (lpParam : Nat)
  | ShowWindow (hWnd : HWND) (nCmdShow : Int)
  | UpdateWindow (hWnd : HWND)
  | DestroyWindow (hWnd : HWND)
  | InvalidateRect (hWnd : HWND) (lpRect : Option RECT) (bErase : BOOL)
  | GetClientRect (hWnd : HWND) (lpRect : Option RECT)
  | SetWindowText (hWnd : HWND) (lpString : Option String)
  | GetMessage (lpMsg : MSG) (hWnd : HWND) (wMsgFilterMin wMsgFilterMax : UINT)
  | TranslateMessage (lpMsg : Option MSG)
  | DispatchMessage (lpMsg : Option MSG)
  | PostQuitMessage (nExitCode : Int)
  | BeginPaint (hWnd : HWND) (lpPaint : Option PAINTSTRUCT)
  | EndPaint (hWnd : HWND) (lpPaint : Option PAINTSTRUCT)
  | DrawText (hdc : HDC) (lpchText : Option String) (cchText : Int) (lpRect : Option RECT)
      (format : UINT)
  | TextOut (hdc : HDC) (x y : Int) (lpString : Option String) (c : Int)
  | SetTextColor (hdc : HDC) (color : DWORD)
  | SetBkMode (hdc : HDC) (mode : Int)

/-- What a call hands back to its caller: the return value, and the contents of the
out-parameter where there is one. -/
inductive Reply where
  | bool (b : BOOL)
  | hwnd (h : HWND)
  | rect (b : BOOL) (lpRect : Option RECT)
  | message (b : BOOL) (lpMsg : MSG)
  | lresult (r : LRESULT)
  | paint (hdc : HDC) (lpPaint : Option PAINTSTRUCT)
  | int (n : Int)
  | dword (n : DWORD)
  | void
  deriving DecidableEq, Repr

/-- A program: it returns a result, or makes a call and goes on according to the reply. -/
inductive Prog where
  | ret (result : LRESULT)
  | call (c : Call) (k : Reply → Prog)

/-- The body of the function behind each window procedure pointer. -/
abbrev WndProcTable := WNDPROC → HWND → UINT → WPARAM → LPARAM → Prog

/-- One call: the reply and the state after it. `dispatch` runs `DispatchMessage`; the
reply is `none` when the call does not return. -/
def stepCall (P : Platform) (dispatch : Option MSG → State → Option LRESULT × State)
    (c : Call) (s : State) : Option Reply × State :=
  match c with
  | Call.RegisterClassEx wc =>
    let r := RegisterClassEx wc s
    (some (Reply.bool r.1), r.2)
  | Call.CreateWindowEx ex cls title style X Y w h parent menu inst param =>
    let r := CreateWindowEx P ex cls title style X Y w h parent menu inst param s
    (some (Reply.hwnd r.1), r.2)
  | Call.ShowWindow hWnd n =>
    let r := ShowWindow hWnd n s
    (some (Reply.bool r.1), r.2)
  | Call.UpdateWindow hWnd =>
    let r := UpdateWindow hWnd s
    (some (Reply.bool r.1), r.2)
  | Call.DestroyWindow hWnd =>
    let r := DestroyWindow hWnd s
    (some (Reply.bool r.1), r.2)
  | Call.InvalidateRect hWnd rc e =>
    let r := InvalidateRect hWnd rc e s
    (some (Reply.bool r.1), r.2)
  | Call.GetClientRect hWnd rc =>
    let r := GetClientRect hWnd rc s
    (some (Reply.rect r.1 r.2.1), r.2.2)
  | Call.SetWindowText hWnd str =>
    let r := SetWindowText hWnd str s
    (some (Reply.bool r.1), r.2)
  | Call.GetMessage m hWnd lo hi =>
    let r := GetMessage m hWnd lo hi s
    (some (Reply.message r.1 r.2.1), r.2.2)
  | Call.TranslateMessage m => (some (Reply.bool (TranslateMessage m)), s)
  | Call.DispatchMessage m =>
    let r := dispatch m s
    (r.1.map Reply.lresult, r.2)
  | Call.PostQuitMessage n => (some Reply.void, PostQuitMessage n s)
  | Call.BeginPaint hWnd ps =>
    let r := BeginPaint P hWnd ps s
    (some (Reply.paint r.1 r.2.1), r.2.2)
  | Call.EndPaint hWnd ps =>
    let r := EndPaint hWnd ps s
    (some (Reply.bool r.1), r.2)
  | Call.DrawText hdc txt n rc fmt =>
    let r := DrawText hdc txt n rc fmt s
    (some (Reply.int r.1), r.2)
  | Call.TextOut hdc x y str n =>
    let r := TextOut hdc x y str n s
    (some (Reply.bool r.1), r.2)
  | Call.SetTextColor hdc color => (some (Reply.dword (SetTextColor hdc color)), s)
  | Call.SetBkMode hdc mode => (some (Reply.int (SetBkMode hdc mode)), s)

/-- Runs a program to its end, or up to the call that does not return; the state is the
one reached. -/
def runProg (P : Platform) (dispatch : Option MSG → State → Option LRESULT × State) :
    Prog → State → Option LRESULT × State
  | Prog.ret result, s => (some result, s)
  | Prog.call c k, s =>
    match stepCall P dispatch c s with
    | (some reply, s1) => runProg P dispatch (k reply) s1
    | (none, s1) => (none, s1)

/-- The entry point `DispatchMessage` with window procedures taken from `procs`; a window
procedure may itself call `DispatchMessage`, and `depth` bounds how deep such calls may
nest: a procedure entered beyond that depth is cut off where it starts. -/
def dispatchMessage (P : Platform) (procs : WndProcTable) :
    Nat → Option MSG → State → Option LRESULT × State
  | 0 => DispatchMessage (fun _ _ _ _ _ st => (none, st))
  | depth + 1 =>
    DispatchMessage (fun proc hwnd msg wParam lParam st =>
      runProg P (dispatchMessage P procs depth) (procs proc hwnd msg wParam lParam) st)

/-- A finite sequence of calls made one after the other; the state is the one reached
at its end, or where a call did not return. -/
def runCalls (P : Platform) (procs : WndProcTable) (depth : Nat) : List Call → State → State
  | [], s => s
  | c :: cs, s =>
    match stepCall P (dispatchMessage P procs depth) c s with
    | (some _, s1) => runCalls P procs depth cs s1
    | (none, s1) => s1

/-- The sequence of `n` consecutive `GetMessage(&msg, NULL, 0, 0)` calls on one `MSG`:
the results and delivered contents of `msg` in call order, and the final state. -/
def getMessages : Nat → MSG → State → List (BOOL × MSG) × State
  | 0, _, s => ([], s)
  | n + 1, lpMsg, s =>
    let r := GetMessage lpMsg 0 0 0 s
    let rest := getMessages n r.2.1 r.2.2
    ((r.1, r.2.1) :: rest.1, rest.2)

/-! ## Handle counters -/

/-- The device-context counter has not wrapped around to null, and every key of the
device-context table is a value the counter has already passed. -/
def DCHandlesBelowCounter (s : State) : Prop :=
  0 < s.g_nextDCHandle ∧ ∀ k ∈ s.g_deviceContexts.keys, k < s.g_nextDCHandle

/-! ## The set-up of `win32_hello.cpp` -/

/-- The address of the demo's `WindowProc`: some non-null function pointer. -/
def WindowProc_ptr : WNDPROC := 4096

/-- The `WNDCLASSEX wc` that `WinMain` fills in. -/
def helloClass : WNDCLASSEX :=
  { cbSize := 80, style := 3, lpfnWndProc := WindowProc_ptr, cbClsExtra := 0, cbWndExtra := 0,
    hInstance := GetModuleHandle none, hIcon := 0, hCursor := LoadCursor 0 32512,
    hbrBackground := 6, lpszMenuName := none, lpszClassName := some "HelloWorldWindowClass",
    hIconSm := 0 }

/-- The state after `RegisterClassEx(&wc)` at program start. -/
def helloRegistered : State := (RegisterClassEx (some helloClass) State.init).2

/-- The `CreateWindowEx` call of `WinMain`, on the stub platform. -/
def helloCreated : HWND × State :=
  CreateWindowEx stubPlatform 0 "HelloWorldWindowClass" (some "Hello World - Cross Platform Win32")
    0x00CF0000 300 300 500 400 0 0 (GetModuleHandle none) 0 helloRegistered

/-- The demo's `WindowProc`. Its locals `PAINTSTRUCT ps` and `RECT rect` are not
initialised; `ps0` and `rect0` are what they happen to hold on entry. -/
def WindowProc (ps0 : PAINTSTRUCT) (rect0 : RECT) (hwnd : HWND) (uMsg : UINT) (wParam : WPARAM)
    (lParam : LPARAM) : Prog :=
  let _unused := (wParam, lParam)
  if uMsg = WM_PAINT then
    Prog.call (Call.BeginPaint hwnd (some ps0)) fun r1 =>
      let hdc : HDC := match r1 with
        | Reply.paint h _ => h
        | _ => 0
      let ps : Option PAINTSTRUCT := match r1 with
        | Reply.paint _ p => p
        | _ => some ps0
      -- Set up text drawing
      Prog.call (Call.SetBkMode hdc 1) fun _ =>
      Prog.call (Call.SetTextColor hdc 0) fun _ =>
      -- Get client rectangle
      Prog.call (Call.GetClientRect hwnd (some rect0)) fun r2 =>
        let rect : Option RECT := match r2 with
          | Reply.rect _ r => r
          | _ => some rect0
        -- Draw "Hello World!" centered in the window
        Prog.call (Call.DrawText hdc (some "Hello World!") (-1) rect
          (DT_SINGLELINE ||| DT_CENTER ||| DT_VCENTER)) fun _ =>
        Prog.call (Call.EndPaint hwnd ps) fun _ =>
        Prog.ret 0
  else if uMsg = WM_CLOSE then
    Prog.call (Call.DestroyWindow hwnd) fun _ => Prog.ret 0
  else if uMsg = WM_DESTROY then
    Prog.call (Call.PostQuitMessage 0) fun _ => Prog.ret 0
  else
    Prog.ret 0 -- Default processing for non-Windows platforms

/-- The window procedures of the demo: `WindowProc` at its address, with zeroed locals
on entry; no other address is ever registered, a call through one returns 0 at once. -/
def helloProcs : WndProcTable := fun proc =>
  if proc = WindowProc_ptr then
    WindowProc
      { hdc := 0, fErase := 0, rcPaint := ⟨0, 0, 0, 0⟩, fRestore := 0, fIncUpdate := 0,
        rgbReserved := [] }
      ⟨0, 0, 0, 0⟩
  else fun _ _ _ _ => Prog.ret 0

/-- A sequence of calls made after the demo has posted quit: it shows and updates the
window, dispatches a paint and a close message to `WindowProc`, creates a second window,
registers a class, and asks for a message. -/
def callsAfterQuit : List Call :=
  [Call.ShowWindow 1 5, Call.UpdateWindow 1, Call.DispatchMessage (some (paintMessage 1)),
   Call.InvalidateRect 1 none 0, Call.SetWindowText 1 (some "bye"),
   Call.CreateWindowEx 0 "HelloWorldWindowClass" none 0 0 0 10 10 0 0 0 0,
   Call.RegisterClassEx (some helloClass), Call.GetMessage MSG.zero 0 0 0,
   Call.DispatchMessage (some { MSG.zero with hwnd := 1, message := WM_CLOSE }),
   Call.PostQuitMessage 3]

/-- A second window, created after the demo's, for examples with two tracked windows. -/
def helloSecond : HWND × State :=
  CreateWindowEx stubPlatform 0 "HelloWorldWindowClass" none 0 10 20 30 40 0 0 0 0 helloCreated.2

/-! ## The range of `int` -/

def isCreatePlatformWindow : PlatformCall → Bool
  | PlatformCall.CreatePlatformWindow _ _ _ _ _ => true
  | _ => false

def isBeginPlatformPaint : PlatformCall → Bool
  | PlatformCall.BeginPlatformPaint _ => true
  | _ => false

/-- How many times `CreateWindowEx` has run: it is the one caller of
`CreatePlatformWindow`, and calls it once. -/
def windowsCreated (s : State) : Nat := s.platformCalls.countP isCreatePlatformWindow

/-- How many times `BeginPaint` has handed out a device context: it is the one caller of
`BeginPlatformPaint`, and calls it once when the window is tracked. -/
def paintsBegun (s : State) : Nat := s.platformCalls.countP isBeginPlatformPaint

/-- Neither counter has wrapped around: fewer than `2 ^ 64 - 1` handles of each kind have
been handed out. -/
def BelowWrap (s : State) : Prop :=
  1 + windowsCreated s < 2 ^ PTR_BITS ∧ 1 + paintsBegun s < 2 ^ PTR_BITS

/-- Each counter is one plus the number of handles handed out, modulo `2 ^ 64`; and while
a counter has not wrapped, the keys of its table are among the handles handed out, which
are the numbers from 1 up to that number. -/
def HandleInvariant (s : State) : Prop :=
  s.g_nextWindowHandle = (1 + windowsCreated s) % 2 ^ PTR_BITS ∧
  s.g_nextDCHandle = (1 + paintsBegun s) % 2 ^ PTR_BITS ∧
  (1 + windowsCreated s < 2 ^ PTR_BITS →
    ∀ k ∈ s.g_windows.keys, 0 < k ∧ k ≤ windowsCreated s) ∧
  (1 + paintsBegun s < 2 ^ PTR_BITS →
    ∀ k ∈ s.g_deviceContexts.keys, 0 < k ∧ k ≤ paintsBegun s)

/-- What one entry point may do to the window table and its counter: hand out no handle
and add no key, or hand out the counter's value and add at most that key. -/
def WindowStep (s t : State) : Prop :=
  (windowsCreated t = windowsCreated s ∧ t.g_nextWindowHandle = s.g_nextWindowHandle ∧
    ∀ k ∈ t.g_windows.keys, k ∈ s.g_windows.keys) ∨
  (windowsCreated t = windowsCreated s + 1 ∧
    t.g_nextWindowHandle = nextHandle s.g_nextWindowHandle ∧
    ∀ k ∈ t.g_windows.keys, k = s.g_nextWindowHandle ∨ k ∈ s.g_windows.keys)

/-- What one entry point may do to the device-context table and its counter. -/
def DCStep (s t : State) : Prop :=
  (paintsBegun t = paintsBegun s ∧ t.g_nextDCHandle = s.g_nextDCHandle ∧
    ∀ k ∈ t.g_deviceContexts.keys, k ∈ s.g_deviceContexts.keys) ∨
  (paintsBegun t = paintsBegun s + 1 ∧ t.g_nextDCHandle = nextHandle s.g_nextDCHandle ∧
    ∀ k ∈ t.g_deviceContexts.keys, k = s.g_nextDCHandle ∨ k ∈ s.g_deviceContexts.keys)

/-- The invariant, with lower bounds on the numbers of handles handed out. -/
def HandleInvariantFrom (n m : Nat) (s : State) : Prop :=
  HandleInvariant s ∧ n ≤ windowsCreated s ∧ m ≤ paintsBegun s

/-- The calls of `WinMain` up to the message loop. -/
def helloCalls : List Call :=
  [Call.RegisterClassEx (some helloClass),
   Call.CreateWindowEx 0 "HelloWorldWindowClass" (some "Hello World - Cross Platform Win32")
     0x00CF0000 300 300 500 400 0 0 (GetModuleHandle none) 0,
   Call.ShowWindow 1 5, Call.UpdateWindow 1]

/-! ## The message loop of `WinMain` -/

/-- Where the message loop stands after some turns. -/
inductive LoopResult where
  /-- `GetMessage` has returned 0: the loop is left with `msg` as it is now. -/
  | exited (msg : MSG) (s : State)
  /-- The turns asked for have been made and the loop goes on. -/
  | running (msg : MSG) (s : State)
  /-- A window procedure called in the loop did not return. -/
  | cutOff (msg : MSG) (s : State)
  deriving DecidableEq

/-- The loop `while (GetMessage(&msg, NULL, 0, 0)) { TranslateMessage(&msg);
DispatchMessage(&msg); }`, for at most `turns` turns, started with `msg` holding `lpMsg`. -/
def messageLoop (P : Platform) (procs : WndProcTable) (depth : Nat) :
    Nat → MSG → State → LoopResult
  | 0, lpMsg, s => LoopResult.running lpMsg s
  | turns + 1, lpMsg, s =>
    let g := GetMessage lpMsg 0 0 0 s
    if g.1 ≠ 0 then
      let _translated := TranslateMessage (some g.2.1)
      let d := dispatchMessage P procs depth (some g.2.1) g.2.2
      match d.1 with
      | some _ => messageLoop P procs depth turns g.2.1 d.2
      | none => LoopResult.cutOff g.2.1 d.2
    else LoopResult.exited g.2.1 g.2.2

/-- The value `return (int)msg.wParam;` gives for the `msg` the loop was left with. -/
def exitCode (msg : MSG) : Int := wParamToInt msg.wParam

/-- The state in which the demo enters its message loop (class registered, window 1
created, shown and updated), with the messages `extra` placed behind the queued ones. -/
def helloLoopStart (P : Platform) (extra : List MSG) : State :=
  { runCalls P helloProcs 1 helloCalls State.init with
    g_messageQueue := (runCalls P helloProcs 1 helloCalls State.init).g_messageQueue ++ extra }

/-- A message for window 1 with the given code and zero parameters. -/
def helloMessage (message : UINT) : MSG := { MSG.zero with hwnd := 1, message := message }

/-- A destroy message for window 1 that carries 7 in `wParam`. -/
def destroySeven : MSG := { MSG.zero with hwnd := 1, message := WM_DESTROY, wParam := 7 }

/-- The seven statics have the same values in both states (the record of platform
calls, which is not one of them, may differ). -/
def SameStatics (s t : State) : Prop :=
  t.g_windows = s.g_windows ∧ t.g_deviceContexts = s.g_deviceContexts ∧
  t.g_windowClasses = s.g_windowClasses ∧ t.g_nextWindowHandle = s.g_nextWindowHandle ∧
  t.g_nextDCHandle = s.g_nextDCHandle ∧ t.g_messageQueue = s.g_messageQueue ∧
  t.g_quitPosted = s.g_quitPosted

/-! ## Facts about `KMap` -/

namespace KMap

variable {α : Type}

theorem findRaw_insertRaw_self (k : Nat) (v : α) (l : List (Nat × α)) :
    findRaw k (insertRaw k v l) = some v := by
  induction l with
  | nil => simp [insertRaw, findRaw]
  | cons e t ih =>
    simp only [insertRaw]
    split
    · simp [findRaw]
    · split
      · simp [findRaw]
      · rename_i h1 h2
        have : e.1 ≠ k := fun h => h2 h.symm
        simp [findRaw, this, ih]

theorem findRaw_insertRaw_ne (k k' : Nat) (v : α) (l : List (Nat × α)) (h : k' ≠ k) :
    findRaw k' (insertRaw k v l) = findRaw k' l := by
  induction l with
  | nil => simp [insertRaw, findRaw, h.symm]
  | cons e t ih =>
    simp only [insertRaw]
    split
    · simp [findRaw, h.symm]
    · split
      · rename_i h1 h2
        have : e.1 ≠ k' := fun h3 => h (h3 ▸ h2).symm
        simp [findRaw, h.symm, this]
      · simp [findRaw, ih]

theorem findRaw_eraseRaw_self (k : Nat) (l : List (Nat × α)) :
    findRaw k (eraseRaw k l) = none := by
  induction l with
  | nil => simp [eraseRaw, findRaw]
  | cons e t ih =>
    by_cases h : e.1 = k
    · simpa [eraseRaw, h] using ih
    · simpa [eraseRaw, h, findRaw] using ih

theorem findRaw_eraseRaw_ne (k k' : Nat) (l : List (Nat × α)) (h : k' ≠ k) :
    findRaw k' (eraseRaw k l) = findRaw k' l := by
  induction l with
  | nil => simp [eraseRaw, findRaw]
  | cons e t ih =>
    unfold eraseRaw at ih ⊢
    by_cases h1 : e.1 = k
    · have h3 : e.1 ≠ k' := fun h2 => h (h2 ▸ h1)
      rw [List.filter_cons_of_neg (by simp [h1]), ih]
      simp only [findRaw, if_neg h3]
    · rw [List.filter_cons_of_pos (by simp [h1])]
      by_cases h2 : e.1 = k'
      · simp only [findRaw, if_pos h2]
      · simp only [findRaw, if_neg h2, ih]

theorem findRaw_isSome_iff (k : Nat) (l : List (Nat × α)) :
    (findRaw k l).isSome = true ↔ k ∈ l.map Prod.fst := by
  induction l with
  | nil => simp [findRaw]
  | cons e t ih =>
    by_cases h : e.1 = k
    · simp [findRaw, h]
    · have h2 : ¬ k = e.1 := fun h3 => h h3.symm
      simp [findRaw, h, h2, ih]

theorem find_insert_self (m : KMap α) (k : Nat) (v : α) : (m.insert k v).find k = some v :=
  findRaw_insertRaw_self k v m.1

theorem find_insert_ne (m : KMap α) (k k' : Nat) (v : α) (h : k' ≠ k) :
    (m.insert k v).find k' = m.find k' :=
  findRaw_insertRaw_ne k k' v m.1 h

theorem find_erase_self (m : KMap α) (k : Nat) : (m.erase k).find k = none :=
  findRaw_eraseRaw_self k m.1

theorem find_erase_ne (m : KMap α) (k k' : Nat) (h : k' ≠ k) :
    (m.erase k).find k' = m.find k' :=
  findRaw_eraseRaw_ne k k' m.1 h

theorem contains_iff_mem_keys (m : KMap α) (k : Nat) : m.contains k = true ↔ k ∈ m.keys :=
  findRaw_isSome_iff k m.1

theorem contains_eq_false_iff (m : KMap α) (k : Nat) : m.contains k = false ↔ m.find k = none := by
  unfold contains
  cases m.find k <;> simp

theorem contains_eq_true_iff (m : KMap α) (k : Nat) :
    m.contains k = true ↔ ∃ v, m.find k = some v := by
  unfold contains
  cases m.find k <;> simp

end KMap

/-! ## Window lifecycle -/

/-- C1: on a handle that is not a key of the window table, each of `ShowWindow`,
`DestroyWindow`, `InvalidateRect`, `GetClientRect` and `SetWindowText` returns `FALSE`
and leaves the whole state (every static, and the record of platform calls) as it was,
the caller's rectangle included; on a handle that is a key of the window table each of
them returns `TRUE`, `GetClientRect` when given a non-null rectangle. -/
theorem lifecycle_ops_check_handle_presence (s : State) (h : HWND) (n : Int)
    (rc : Option RECT) (e : BOOL) (r : Option RECT) (r0 : RECT) (str : Option String) :
    (s.g_windows.contains h = false →
      ShowWindow h n s = (FALSE, s) ∧ DestroyWindow h s = (FALSE, s) ∧
      InvalidateRect h rc e s = (FALSE, s) ∧ GetClientRect h r s = (FALSE, r, s) ∧
      SetWindowText h str s = (FALSE, s)) ∧
    (s.g_windows.contains h = true →
      (ShowWindow h n s).1 = TRUE ∧ (DestroyWindow h s).1 = TRUE ∧
      (InvalidateRect h rc e s).1 = TRUE ∧ (GetClientRect h (some r0) s).1 = TRUE ∧
      (SetWindowText h str s).1 = TRUE) := by
  constructor
  · intro hc
    have hf : s.g_windows.find h = none := (KMap.contains_eq_false_iff _ _).1 hc
    refine ⟨?_, ?_, ?_, ?_, ?_⟩
    · simp only [ShowWindow, hf]
    · simp only [DestroyWindow, hf]
    · simp only [InvalidateRect, hf]
    · simp only [GetClientRect, hf]
    · simp only [SetWindowText, hf]
  · intro hc
    obtain ⟨w, hf⟩ := (KMap.contains_eq_true_iff _ _).1 hc
    refine ⟨?_, ?_, ?_, ?_, ?_⟩
    · simp only [ShowWindow, hf]
    · simp only [DestroyWindow, hf]
    · simp only [InvalidateRect, hf]
    · simp only [GetClientRect, hf]
    · simp only [SetWindowText, hf]

/-- C1, at the start-up state for the unknown handle 7 and after the demo's
`CreateWindowEx` for the handle it returned. -/
theorem lifecycle_ops_check_handle_presence_witness :
    (ShowWindow 7 5 State.init = (FALSE, State.init) ∧
      DestroyWindow 7 State.init = (FALSE, State.init) ∧
      InvalidateRect 7 none 1 State.init = (FALSE, State.init) ∧
      GetClientRect 7 (some ⟨1, 2, 3, 4⟩) State.init = (FALSE, some ⟨1, 2, 3, 4⟩, State.init) ∧
      SetWindowText 7 (some "x") State.init = (FALSE, State.init)) ∧
    ((ShowWindow helloCreated.1 5 helloCreated.2).1 = TRUE ∧
      (DestroyWindow helloCreated.1 helloCreated.2).1 = TRUE ∧
      (InvalidateRect helloCreated.1 none 1 helloCreated.2).1 = TRUE ∧
      (GetClientRect helloCreated.1 (some ⟨1, 2, 3, 4⟩) helloCreated.2).1 = TRUE ∧
      (SetWindowText helloCreated.1 (some "x") helloCreated.2).1 = TRUE) :=
  ⟨(lifecycle_ops_check_handle_presence State.init 7 5 none 1 (some ⟨1, 2, 3, 4⟩) ⟨1, 2, 3, 4⟩
      (some "x")).1 (by decide),
   (lifecycle_ops_check_handle_presence helloCreated.2 helloCreated.1 5 none 1 none ⟨1, 2, 3, 4⟩
      (some "x")).2 (by decide)⟩

/-- C2: `DestroyWindow` on a tracked handle returns `TRUE` and removes exactly the record
of that handle: the handle is no longer a key of the window table, so `GetClientRect` on
it returns `FALSE`; the record of every other handle is what it was; and the message
queue is what it was, so a message queued for the handle is still at its position. -/
theorem destroyWindow_removes_exactly_one (s : State) (h : HWND)
    (htracked : s.g_windows.contains h = true) :
    (DestroyWindow h s).1 = TRUE ∧
    (DestroyWindow h s).2.g_windows.contains h = false ∧
    (∀ r : Option RECT, (GetClientRect h r (DestroyWindow h s).2).1 = FALSE) ∧
    (∀ h2 : HWND, h2 ≠ h → (DestroyWindow h s).2.g_windows.find h2 = s.g_windows.find h2) ∧
    (DestroyWindow h s).2.g_messageQueue = s.g_messageQueue ∧
    (∀ (i : Nat) (m : MSG), s.g_messageQueue.get? i = some m → m.hwnd = h →
      (DestroyWindow h s).2.g_messageQueue.get? i = some m) := by
  obtain ⟨w, hf⟩ := (KMap.contains_eq_true_iff _ _).1 htracked
  have hd : DestroyWindow h s = (TRUE,
      { s with
        g_windows := s.g_windows.erase h
        platformCalls := s.platformCalls ++ [PlatformCall.DestroyPlatformWindow w.platformWindow] }) := by
    simp only [DestroyWindow, hf]
  rw [hd]
  refine ⟨rfl, ?_, ?_, ?_, rfl, ?_⟩
  · exact (KMap.contains_eq_false_iff _ _).2 (KMap.find_erase_self _ _)
  · intro r
    simp only [GetClientRect, KMap.find_erase_self]
  · intro h2 hne
    exact KMap.find_erase_ne _ _ _ hne
  · intro i m hi _
    exact hi

/-- C2, for the demo's window with two paint messages for it in the queue. -/
theorem destroyWindow_removes_exactly_one_witness :
    (DestroyWindow helloCreated.1 (UpdateWindow helloCreated.1 (UpdateWindow helloCreated.1 helloCreated.2).2).2).1 = TRUE ∧
    (DestroyWindow helloCreated.1 (UpdateWindow helloCreated.1 (UpdateWindow helloCreated.1 helloCreated.2).2).2).2.g_messageQueue
      = [paintMessage helloCreated.1, paintMessage helloCreated.1] :=
  have h := destroyWindow_removes_exactly_one
    (UpdateWindow helloCreated.1 (UpdateWindow helloCreated.1 helloCreated.2).2).2 helloCreated.1 (by decide)
  ⟨h.1, h.2.2.2.2.1.trans (by decide)⟩

/-- C3: `ShowWindow` on the handle that `CreateWindowEx` has just returned gives `TRUE`
for every `nCmdShow`; the record of that window then has `visible = (nCmdShow != 0)` and
otherwise the fields `CreateWindowEx` gave it (title, position, size, callback, platform
window); the record of every other handle is unchanged. -/
theorem showWindow_after_createWindowEx (P : Platform) (s : State) (dwExStyle : DWORD)
    (lpClassName : String) (lpWindowName : Option String) (dwStyle : DWORD)
    (X Y nWidth nHeight : Int) (hWndParent : HWND) (hMenu : Nat) (hInstance : HINSTANCE)
    (lpParam : Nat) (nCmdShow : Int) :
    let c := CreateWindowEx P dwExStyle lpClassName lpWindowName dwStyle X Y nWidth nHeight
      hWndParent hMenu hInstance lpParam s
    let r := ShowWindow c.1 nCmdShow c.2
    r.1 = TRUE ∧
    (∃ w : WindowData, c.2.g_windows.find c.1 = some w ∧
      w.title = lpWindowName.getD "" ∧ w.x = X ∧ w.y = Y ∧ w.width = nWidth ∧
      w.height = nHeight ∧ w.wndProc = (classFind lpClassName s.g_windowClasses).getD 0 ∧
      r.2.g_windows.find c.1 = some { w with visible := decide (nCmdShow ≠ 0) }) ∧
    (∀ h2 : HWND, h2 ≠ c.1 → r.2.g_windows.find h2 = c.2.g_windows.find h2) := by
  intro c r
  have hc : c.2.g_windows.find c.1 = some
      { title := lpWindowName.getD "", x := X, y := Y, width := nWidth, height := nHeight,
        visible := false, wndProc := (classFind lpClassName s.g_windowClasses).getD 0,
        platformWindow := P.CreatePlatformWindow s.platformCalls (lpWindowName.getD "") X Y
          nWidth nHeight } := by
    simp only [c, CreateWindowEx]
    rw [KMap.find_insert_self]
    cases lpWindowName <;> cases classFind lpClassName s.g_windowClasses <;> rfl
  have hr : r = ShowWindow c.1 nCmdShow c.2 := rfl
  simp only [ShowWindow, hc] at hr
  rw [hr]
  refine ⟨rfl, ⟨_, hc, rfl, rfl, rfl, rfl, rfl, rfl, ?_⟩, ?_⟩
  · exact KMap.find_insert_self _ _ _
  · intro h2 hne
    exact KMap.find_insert_ne _ _ _ _ hne

/-- C3, for the demo's `CreateWindowEx` call followed by `ShowWindow(hwnd, SW_SHOW)`: the
call succeeds, and the unknown handle 2 stays unknown. -/
theorem showWindow_after_createWindowEx_witness :
    (ShowWindow helloCreated.1 5 helloCreated.2).1 = TRUE ∧
    (ShowWindow helloCreated.1 5 helloCreated.2).2.g_windows.find 2 = none :=
  have h := showWindow_after_createWindowEx stubPlatform helloRegistered 0
    "HelloWorldWindowClass" (some "Hello World - Cross Platform Win32") 0x00CF0000
    300 300 500 400 0 0 (GetModuleHandle none) 0 5
  ⟨h.1, (h.2.2 2 (by decide)).trans (by decide)⟩

/-- C4: `GetClientRect` on the handle returned by `CreateWindowEx(.., X, Y, nWidth,
nHeight, ..)` returns `TRUE` and writes `(0, 0, nWidth, nHeight)`, whatever `X` and `Y`
and whatever the sign of the sizes; and after `ShowWindow`, `SetWindowText`,
`InvalidateRect` or `UpdateWindow` on a tracked handle `GetClientRect` on it gives what
it gave before, in every state. -/
theorem getClientRect_reports_creation_size (P : Platform) (s : State) (dwExStyle : DWORD)
    (lpClassName : String) (lpWindowName : Option String) (dwStyle : DWORD)
    (X Y nWidth nHeight : Int) (hWndParent : HWND) (hMenu : Nat) (hInstance : HINSTANCE)
    (lpParam : Nat) (r0 : RECT) (nCmdShow : Int) (lpString : Option String)
    (lpRect : Option RECT) (bErase : BOOL) :
    let c := CreateWindowEx P dwExStyle lpClassName lpWindowName dwStyle X Y nWidth nHeight
      hWndParent hMenu hInstance lpParam s
    let size : RECT := { left := 0, top := 0, right := nWidth, bottom := nHeight }
    GetClientRect c.1 (some r0) c.2 = (TRUE, some size, c.2) ∧
    (GetClientRect c.1 (some r0) (ShowWindow c.1 nCmdShow c.2).2).2.1 = some size ∧
    (GetClientRect c.1 (some r0) (SetWindowText c.1 lpString c.2).2).2.1 = some size ∧
    (GetClientRect c.1 (some r0) (InvalidateRect c.1 lpRect bErase c.2).2).2.1 = some size ∧
    (GetClientRect c.1 (some r0) (UpdateWindow c.1 c.2).2).2.1 = some size ∧
    (∀ (t : State) (h : HWND) (rect : Option RECT),
      (GetClientRect h rect (ShowWindow h nCmdShow t).2).1 = (GetClientRect h rect t).1 ∧
      (GetClientRect h rect (ShowWindow h nCmdShow t).2).2.1 = (GetClientRect h rect t).2.1 ∧
      (GetClientRect h rect (SetWindowText h lpString t).2).1 = (GetClientRect h rect t).1 ∧
      (GetClientRect h rect (SetWindowText h lpString t).2).2.1 = (GetClientRect h rect t).2.1 ∧
      (GetClientRect h rect (InvalidateRect h lpRect bErase t).2).1 = (GetClientRect h rect t).1 ∧
      (GetClientRect h rect (InvalidateRect h lpRect bErase t).2).2.1 = (GetClientRect h rect t).2.1 ∧
      (GetClientRect h rect (UpdateWindow h t).2).1 = (GetClientRect h rect t).1 ∧
      (GetClientRect h rect (UpdateWindow h t).2).2.1 = (GetClientRect h rect t).2.1) := by
  intro c size
  have hgen : ∀ (t : State) (h : HWND) (rect : Option RECT),
      (GetClientRect h rect (ShowWindow h nCmdShow t).2).1 = (GetClientRect h rect t).1 ∧
      (GetClientRect h rect (ShowWindow h nCmdShow t).2).2.1 = (GetClientRect h rect t).2.1 ∧
      (GetClientRect h rect (SetWindowText h lpString t).2).1 = (GetClientRect h rect t).1 ∧
      (GetClientRect h rect (SetWindowText h lpString t).2).2.1 = (GetClientRect h rect t).2.1 ∧
      (GetClientRect h rect (InvalidateRect h lpRect bErase t).2).1 = (GetClientRect h rect t).1 ∧
      (GetClientRect h rect (InvalidateRect h lpRect bErase t).2).2.1 = (GetClientRect h rect t).2.1 ∧
      (GetClientRect h rect (UpdateWindow h t).2).1 = (GetClientRect h rect t).1 ∧
      (GetClientRect h rect (UpdateWindow h t).2).2.1 = (GetClientRect h rect t).2.1 := by
    intro t h rect
    cases hf : t.g_windows.find h with
    | none =>
      simp only [ShowWindow, SetWindowText, InvalidateRect, UpdateWindow, GetClientRect, hf,
        and_self]
    | some w =>
      cases rect with
      | none =>
        simp only [ShowWindow, SetWindowText, InvalidateRect, UpdateWindow, GetClientRect, hf,
          KMap.find_insert_self, and_self]
      | some r1 =>
        simp only [ShowWindow, SetWindowText, InvalidateRect, UpdateWindow, GetClientRect, hf,
          KMap.find_insert_self, and_self]
  have hc : GetClientRect c.1 (some r0) c.2 = (TRUE, some size, c.2) := by
    simp only [c, size, CreateWindowEx, GetClientRect, KMap.find_insert_self]
  have h2 : (GetClientRect c.1 (some r0) c.2).2.1 = some size := by rw [hc]
  refine ⟨hc, ?_, ?_, ?_, ?_, hgen⟩
  · rw [(hgen c.2 c.1 (some r0)).2.1, h2]
  · rw [(hgen c.2 c.1 (some r0)).2.2.2.1, h2]
  · rw [(hgen c.2 c.1 (some r0)).2.2.2.2.2.1, h2]
  · rw [(hgen c.2 c.1 (some r0)).2.2.2.2.2.2.2, h2]

/-! ## Message queue -/

theorem wParamToInt_toUIntPtr (code : Int) (hlo : -2 ^ 31 ≤ code) (hhi : code < 2 ^ 31) :
    wParamToInt (toUIntPtr code) = code := by
  unfold wParamToInt toUIntPtr toInt32 PTR_BITS
  have h0 : (0 : Int) ≤ code % 2 ^ 64 := Int.emod_nonneg _ (by norm_num)
  rw [Int.toNat_of_nonneg h0]
  norm_num at hlo hhi ⊢
  omega

theorem getMessage_of_quit (lpMsg : MSG) (hWnd : HWND) (lo hi : UINT) (s : State)
    (hq : s.g_quitPosted = true) : GetMessage lpMsg hWnd lo hi s = (FALSE, lpMsg, s) := by
  simp only [GetMessage, hq, if_true]

theorem getMessage_of_cons (lpMsg : MSG) (hWnd : HWND) (lo hi : UINT) (s : State) (m : MSG)
    (rest : List MSG) (hrun : s.g_quitPosted = false) (hq : s.g_messageQueue = m :: rest) :
    GetMessage lpMsg hWnd lo hi s = (TRUE, m,
      { s with
        g_messageQueue := rest
        platformCalls := s.platformCalls ++ [PlatformCall.ProcessPlatformEvents] }) := by
  simp only [GetMessage, hrun, hq]
  rfl

/-- C5: the queue is first-in first-out. `UpdateWindow`, `InvalidateRect` (on a tracked
handle) and `PostQuitMessage` put their message behind the messages already queued, which
stay as they are; and in a running state with `k` or more queued messages, `k`
consecutive `GetMessage` calls all return `TRUE`, deliver the first `k` queued messages in
queue order, and leave the remaining ones queued. -/
theorem message_queue_is_fifo (s : State) (hWnd : HWND) (lpRect : Option RECT) (bErase : BOOL)
    (nExitCode : Int) (lpMsg : MSG) (k : Nat) :
    (UpdateWindow hWnd s).2.g_messageQueue = s.g_messageQueue ++ [paintMessage hWnd] ∧
    (s.g_windows.contains hWnd = true →
      (InvalidateRect hWnd lpRect bErase s).2.g_messageQueue
        = s.g_messageQueue ++ [paintMessage hWnd]) ∧
    (PostQuitMessage nExitCode s).g_messageQueue = s.g_messageQueue ++ [quitMessage nExitCode] ∧
    (s.g_quitPosted = false → k ≤ s.g_messageQueue.length →
      (getMessages k lpMsg s).1 = (s.g_messageQueue.take k).map (fun m => (TRUE, m)) ∧
      (getMessages k lpMsg s).2.g_messageQueue = s.g_messageQueue.drop k) := by
  refine ⟨rfl, ?_, rfl, ?_⟩
  · intro ht
    obtain ⟨w, hf⟩ := (KMap.contains_eq_true_iff _ _).1 ht
    simp only [InvalidateRect, hf]
  · intro hrun hk
    induction k generalizing lpMsg s with
    | zero => simp [getMessages]
    | succ n ih =>
      cases hq : s.g_messageQueue with
      | nil => rw [hq] at hk; simp at hk
      | cons m rest =>
        rw [hq] at hk
        have hk2 : n ≤ rest.length := by simpa using hk
        have hg := getMessage_of_cons lpMsg 0 0 0 s m rest hrun hq
        have h := ih ({ s with
            g_messageQueue := rest
            platformCalls := s.platformCalls ++ [PlatformCall.ProcessPlatformEvents] }) m hrun hk2
        simp only [getMessages, hg, List.take_succ_cons, List.map_cons, List.drop_succ_cons]
        exact ⟨by rw [h.1], h.2⟩

/-- C5, on the demo's window: three messages are queued by `UpdateWindow`, `InvalidateRect`
and `UpdateWindow` for the unknown handle 9, and two `GetMessage` calls deliver the first
two in that order. -/
theorem message_queue_is_fifo_witness :
    (getMessages 2 MSG.zero
      (UpdateWindow 9 (InvalidateRect 1 none 0 (UpdateWindow 1 helloCreated.2).2).2).2).1
      = [(TRUE, paintMessage 1), (TRUE, paintMessage 1)] ∧
    (getMessages 2 MSG.zero
      (UpdateWindow 9 (InvalidateRect 1 none 0 (UpdateWindow 1 helloCreated.2).2).2).2).2.g_messageQueue
      = [paintMessage 9] ∧
    (InvalidateRect 1 none 0 helloCreated.2).2.g_messageQueue = [paintMessage 1] :=
  have h := message_queue_is_fifo
    (UpdateWindow 9 (InvalidateRect 1 none 0 (UpdateWindow 1 helloCreated.2).2).2).2 1 none 0 0
    MSG.zero 2
  have h2 := message_queue_is_fifo helloCreated.2 1 none 0 0 MSG.zero 0
  ⟨(h.2.2.2 (by decide) (by decide)).1.trans (by decide),
   (h.2.2.2 (by decide) (by decide)).2.trans (by decide),
   (h2.2.1 (by decide)).trans (by decide)⟩

/-- C6: in a running state with an empty queue, `InvalidateRect` on a tracked handle `h`
followed by `GetMessage` returns `TRUE` and delivers the paint message for `h`
(`hwnd = h`, `message = WM_PAINT = 0x000F`), whatever other windows are tracked; the queue
is empty afterwards, so this `GetMessage` call has synthesized no message. -/
theorem invalidateRect_then_getMessage (s : State) (h : HWND) (lpRect : Option RECT)
    (bErase : BOOL) (lpMsg : MSG) (hWnd : HWND) (lo hi : UINT)
    (hrun : s.g_quitPosted = false) (hempty : s.g_messageQueue = [])
    (htracked : s.g_windows.contains h = true) :
    (InvalidateRect h lpRect bErase s).1 = TRUE ∧
    (GetMessage lpMsg hWnd lo hi (InvalidateRect h lpRect bErase s).2).1 = TRUE ∧
    (GetMessage lpMsg hWnd lo hi (InvalidateRect h lpRect bErase s).2).2.1 = paintMessage h ∧
    (GetMessage lpMsg hWnd lo hi (InvalidateRect h lpRect bErase s).2).2.1.hwnd = h ∧
    (GetMessage lpMsg hWnd lo hi (InvalidateRect h lpRect bErase s).2).2.1.message = WM_PAINT ∧
    WM_PAINT = 0x000F ∧
    (GetMessage lpMsg hWnd lo hi (InvalidateRect h lpRect bErase s).2).2.2.g_messageQueue = [] := by
  obtain ⟨w, hf⟩ := (KMap.contains_eq_true_iff _ _).1 htracked
  have hi1 : InvalidateRect h lpRect bErase s = (TRUE,
      { s with
        g_messageQueue := s.g_messageQueue ++ [paintMessage h]
        platformCalls :=
          s.platformCalls ++ [PlatformCall.InvalidatePlatformWindow w.platformWindow] }) := by
    simp only [InvalidateRect, hf]
  rw [hi1]
  have hg := getMessage_of_cons lpMsg hWnd lo hi
    { s with
      g_messageQueue := s.g_messageQueue ++ [paintMessage h]
      platformCalls :=
        s.platformCalls ++ [PlatformCall.InvalidatePlatformWindow w.platformWindow] }
    (paintMessage h) [] hrun (by simp [hempty])
  rw [hg]
  exact ⟨rfl, rfl, rfl, rfl, rfl, rfl, rfl⟩

/-- C6, for the second of two tracked windows: the message delivered is addressed to
handle 2 although window 1, the first in iteration order, is tracked. -/
theorem invalidateRect_then_getMessage_witness :
    helloSecond.2.g_windows.keys = [1, 2] ∧
    (GetMessage MSG.zero 0 0 0 (InvalidateRect 2 none 0 helloSecond.2).2).2.1.hwnd = 2 :=
  ⟨by decide,
   (invalidateRect_then_getMessage helloSecond.2 2 none 0 MSG.zero 0 0 0 (by decide) (by decide)
      (by decide)).2.2.2.1⟩

/-- C7: `PostQuitMessage(code)` sets the quit flag and puts at the end of the queue a
message with `message = WM_QUIT = 0x0012`, a null `hwnd` and a `wParam` that converts
back to `code` by `(int)msg.wParam`, for every `int` value of `code`; the window and
device-context tables are unchanged, and the next `GetMessage` returns `FALSE`. -/
theorem postQuitMessage_posts_quit (s : State) (nExitCode : Int) (lpMsg : MSG) (hWnd : HWND)
    (lo hi : UINT) (hlo : -2 ^ 31 ≤ nExitCode) (hhi : nExitCode < 2 ^ 31) :
    (PostQuitMessage nExitCode s).g_quitPosted = true ∧
    (PostQuitMessage nExitCode s).g_messageQueue = s.g_messageQueue ++ [quitMessage nExitCode] ∧
    (PostQuitMessage nExitCode s).g_messageQueue.getLast? = some (quitMessage nExitCode) ∧
    (quitMessage nExitCode).message = WM_QUIT ∧ WM_QUIT = 0x0012 ∧
    (quitMessage nExitCode).hwnd = 0 ∧
    wParamToInt (quitMessage nExitCode).wParam = nExitCode ∧
    (PostQuitMessage nExitCode s).g_windows = s.g_windows ∧
    (PostQuitMessage nExitCode s).g_deviceContexts = s.g_deviceContexts ∧
    (GetMessage lpMsg hWnd lo hi (PostQuitMessage nExitCode s)).1 = FALSE := by
  refine ⟨rfl, rfl, ?_, rfl, rfl, rfl, ?_, rfl, rfl, ?_⟩
  · simp [PostQuitMessage]
  · exact wParamToInt_toUIntPtr nExitCode hlo hhi
  · rw [getMessage_of_quit _ _ _ _ _ rfl]

/-- C7, for the exit code -1 posted while the demo's window has a paint message queued. -/
theorem postQuitMessage_posts_quit_witness :
    wParamToInt (quitMessage (-1)).wParam = -1 ∧
    (GetMessage MSG.zero 0 0 0 (PostQuitMessage (-1) (UpdateWindow 1 helloCreated.2).2)).1 = FALSE :=
  have h := postQuitMessage_posts_quit (UpdateWindow 1 helloCreated.2).2 (-1) MSG.zero 0 0 0
    (by decide) (by decide)
  ⟨h.2.2.2.2.2.2.1, h.2.2.2.2.2.2.2.2.2⟩

/-! ## The quit flag -/

theorem RegisterClassEx_quitPosted (wc : Option WNDCLASSEX) (s : State) :
    (RegisterClassEx wc s).2.g_quitPosted = s.g_quitPosted := by
  unfold RegisterClassEx
  split
  · split <;> rfl
  · rfl

theorem ShowWindow_quitPosted (h : HWND) (n : Int) (s : State) :
    (ShowWindow h n s).2.g_quitPosted = s.g_quitPosted := by
  unfold ShowWindow
  split <;> rfl

theorem DestroyWindow_quitPosted (h : HWND) (s : State) :
    (DestroyWindow h s).2.g_quitPosted = s.g_quitPosted := by
  unfold DestroyWindow
  split <;> rfl

theorem InvalidateRect_quitPosted (h : HWND) (rc : Option RECT) (e : BOOL) (s : State) :
    (InvalidateRect h rc e s).2.g_quitPosted = s.g_quitPosted := by
  unfold InvalidateRect
  split <;> rfl

theorem GetClientRect_state (h : HWND) (rc : Option RECT) (s : State) :
    (GetClientRect h rc s).2.2 = s := by
  unfold GetClientRect
  split <;> rfl

theorem SetWindowText_quitPosted (h : HWND) (str : Option String) (s : State) :
    (SetWindowText h str s).2.g_quitPosted = s.g_quitPosted := by
  unfold SetWindowText
  split <;> rfl

theorem GetMessage_quitPosted (m : MSG) (h : HWND) (lo hi : UINT) (s : State) :
    (GetMessage m h lo hi s).2.2.g_quitPosted = s.g_quitPosted := by
  unfold GetMessage
  split
  · rfl
  · dsimp only
    split
    · rfl
    · split <;> rfl

theorem BeginPaint_quitPosted (P : Platform) (h : HWND) (ps : Option PAINTSTRUCT) (s : State) :
    (BeginPaint P h ps s).2.2.g_quitPosted = s.g_quitPosted := by
  unfold BeginPaint
  split
  · split <;> rfl
  · rfl

theorem EndPaint_quitPosted (h : HWND) (ps : Option PAINTSTRUCT) (s : State) :
    (EndPaint h ps s).2.g_quitPosted = s.g_quitPosted := by
  unfold EndPaint
  split
  · split
    · split <;> rfl
    · rfl
  · rfl

theorem DrawText_quitPosted (hdc : HDC) (txt : Option String) (n : Int) (rc : Option RECT)
    (fmt : UINT) (s : State) : (DrawText hdc txt n rc fmt s).2.g_quitPosted = s.g_quitPosted := by
  unfold DrawText
  split <;> rfl

theorem TextOut_quitPosted (hdc : HDC) (x y : Int) (str : Option String) (n : Int) (s : State) :
    (TextOut hdc x y str n s).2.g_quitPosted = s.g_quitPosted := by
  unfold TextOut
  split <;> rfl

/-- `DispatchMessage` keeps the quit flag set when the window procedure it calls does. -/
theorem DispatchMessage_quitPosted
    (invoke : WNDPROC → HWND → UINT → WPARAM → LPARAM → State → Option LRESULT × State)
    (hinv : ∀ p h u w l (t : State), t.g_quitPosted = true → (invoke p h u w l t).2.g_quitPosted = true)
    (m : Option MSG) (s : State) (hq : s.g_quitPosted = true) :
    (DispatchMessage invoke m s).2.g_quitPosted = true := by
  unfold DispatchMessage
  split
  · split
    · split
      · split
        · exact hinv _ _ _ _ _ _ hq
        · exact hq
      · exact hq
    · exact hq
  · exact hq

/-- No single call clears the quit flag, when `DispatchMessage` does not. -/
theorem stepCall_quitPosted (P : Platform)
    (dispatch : Option MSG → State → Option LRESULT × State)
    (hd : ∀ m (t : State), t.g_quitPosted = true → (dispatch m t).2.g_quitPosted = true)
    (c : Call) (s : State) (hq : s.g_quitPosted = true) :
    (stepCall P dispatch c s).2.g_quitPosted = true := by
  cases c with
  | RegisterClassEx wc => simp only [stepCall, RegisterClassEx_quitPosted, hq]
  | CreateWindowEx ex cls title style X Y w h parent menu inst param => exact hq
  | ShowWindow h n => simp only [stepCall, ShowWindow_quitPosted, hq]
  | UpdateWindow h => exact hq
  | DestroyWindow h => simp only [stepCall, DestroyWindow_quitPosted, hq]
  | InvalidateRect h rc e => simp only [stepCall, InvalidateRect_quitPosted, hq]
  | GetClientRect h rc => simp only [stepCall, GetClientRect_state, hq]
  | SetWindowText h str => simp only [stepCall, SetWindowText_quitPosted, hq]
  | GetMessage m h lo hi => simp only [stepCall, GetMessage_quitPosted, hq]
  | TranslateMessage m => exact hq
  | DispatchMessage m => exact hd m s hq
  | PostQuitMessage n => rfl
  | BeginPaint h ps => simp only [stepCall, BeginPaint_quitPosted, hq]
  | EndPaint h ps => simp only [stepCall, EndPaint_quitPosted, hq]
  | DrawText hdc txt n rc fmt => simp only [stepCall, DrawText_quitPosted, hq]
  | TextOut hdc x y str n => simp only [stepCall, TextOut_quitPosted, hq]
  | SetTextColor hdc color => exact hq
  | SetBkMode hdc mode => exact hq

/-- A program keeps the quit flag set, up to wherever it gets. -/
theorem runProg_quitPosted (P : Platform)
    (dispatch : Option MSG → State → Option LRESULT × State)
    (hd : ∀ m (t : State), t.g_quitPosted = true → (dispatch m t).2.g_quitPosted = true)
    (prog : Prog) (s : State) (hq : s.g_quitPosted = true) :
    (runProg P dispatch prog s).2.g_quitPosted = true := by
  induction prog generalizing s with
  | ret result => exact hq
  | call c k ih =>
    have hstep := stepCall_quitPosted P dispatch hd c s hq
    unfold runProg
    cases hr : stepCall P dispatch c s with
    | mk reply s1 =>
      rw [hr] at hstep
      cases reply with
      | none => exact hstep
      | some rep => exact ih rep s1 hstep

theorem dispatchMessage_quitPosted (P : Platform) (procs : WndProcTable) (depth : Nat)
    (m : Option MSG) (s : State) (hq : s.g_quitPosted = true) :
    (dispatchMessage P procs depth m s).2.g_quitPosted = true := by
  induction depth generalizing m s with
  | zero =>
    unfold dispatchMessage
    exact DispatchMessage_quitPosted _ (fun _ _ _ _ _ _ ht => ht) m s hq
  | succ n ih =>
    unfold dispatchMessage
    exact DispatchMessage_quitPosted _
      (fun p h u w l t ht => runProg_quitPosted P _ (fun m2 t2 h2 => ih m2 t2 h2) _ t ht) m s hq

/-- C8: quit-posted is terminal. From a state with the quit flag set, after every finite
sequence of API calls (`DispatchMessage` among them, calling window procedures that are
themselves programs over this API, nested to any depth) the flag is set in the state
reached and `GetMessage` returns `FALSE` there, leaving the caller's message as it was. -/
theorem quit_posted_is_terminal (P : Platform) (procs : WndProcTable) (depth : Nat)
    (calls : List Call) (s : State) (lpMsg : MSG) (hWnd : HWND) (lo hi : UINT)
    (hquit : s.g_quitPosted = true) :
    (runCalls P procs depth calls s).g_quitPosted = true ∧
    GetMessage lpMsg hWnd lo hi (runCalls P procs depth calls s)
      = (FALSE, lpMsg, runCalls P procs depth calls s) := by
  have hflag : (runCalls P procs depth calls s).g_quitPosted = true := by
    induction calls generalizing s with
    | nil => exact hquit
    | cons c cs ih =>
      have hstep := stepCall_quitPosted P (dispatchMessage P procs depth)
        (fun m t ht => dispatchMessage_quitPosted P procs depth m t ht) c s hquit
      unfold runCalls
      cases hr : stepCall P (dispatchMessage P procs depth) c s with
      | mk reply s1 =>
        rw [hr] at hstep
        cases reply with
        | none => exact hstep
        | some rep => exact ih s1 hstep
  exact ⟨hflag, getMessage_of_quit _ _ _ _ _ hflag⟩

/-- C8, for the demo after `PostQuitMessage(0)`: the calls of `callsAfterQuit` all return
(the close message has made `WindowProc` destroy window 1, and window 2 exists), and the
flag is still set. -/
theorem quit_posted_is_terminal_witness :
    (runCalls stubPlatform helloProcs 1 callsAfterQuit (PostQuitMessage 0 helloCreated.2)).g_quitPosted
      = true ∧
    (runCalls stubPlatform helloProcs 1 callsAfterQuit (PostQuitMessage 0 helloCreated.2)).g_windows.keys
      = [2] ∧
    (GetMessage MSG.zero 0 0 0
      (runCalls stubPlatform helloProcs 1 callsAfterQuit (PostQuitMessage 0 helloCreated.2))).1
      = FALSE :=
  have h := quit_posted_is_terminal stubPlatform helloProcs 1 callsAfterQuit
    (PostQuitMessage 0 helloCreated.2) MSG.zero 0 0 0 (by decide)
  ⟨h.1, by decide, congrArg Prod.fst h.2⟩

/-! ## Dispatch -/

theorem KMap.length_insertRaw_of_findRaw_none {α : Type} (k : Nat) (v : α)
    (l : List (Nat × α)) (h : KMap.findRaw k l = none) :
    (KMap.insertRaw k v l).length = l.length + 1 := by
  induction l with
  | nil => simp [KMap.insertRaw]
  | cons e t ih =>
    have hne : e.1 ≠ k := by
      intro heq
      simp [KMap.findRaw, heq] at h
    have ht : KMap.findRaw k t = none := by
      simpa [KMap.findRaw, hne] using h
    simp only [KMap.insertRaw]
    split
    · simp
    · split
      · rename_i h2
        exact absurd h2.symm hne
      · simp [ih ht]

theorem KMap.length_keys_insert {α : Type} (m : KMap α) (k : Nat) (v : α)
    (h : m.find k = none) : (m.insert k v).keys.length = m.keys.length + 1 := by
  simp only [KMap.keys, KMap.insert, List.length_map]
  exact KMap.length_insertRaw_of_findRaw_none k v m.1 h

/-- C10: `BeginPaint` on an untracked handle returns the null handle and leaves the
state and the caller's paint structure as they were. On a tracked handle `h`, in a state
whose device-context counter has not wrapped and is above every key of the table, it
returns the counter's value: a non-null handle that was not a key of the device-context
table; the table gains exactly the record under that handle, whose window is `h` (a key
of the window table, which is unchanged), and keeps every other record; and the caller's
`PAINTSTRUCT` receives `hdc` = the returned handle, `fErase = FALSE` and `rcPaint` =
`(0, 0, width, height)` of the window, the rectangle `GetClientRect` writes for `h`. -/
theorem beginPaint_allocates_device_context (P : Platform) (s : State) (h : HWND)
    (lpPaint : Option PAINTSTRUCT) (ps : PAINTSTRUCT) :
    (s.g_windows.contains h = false → BeginPaint P h lpPaint s = (0, lpPaint, s)) ∧
    (∀ w : WindowData, s.g_windows.find h = some w → DCHandlesBelowCounter s →
      (BeginPaint P h lpPaint s).1 = s.g_nextDCHandle ∧
      (BeginPaint P h lpPaint s).1 ≠ 0 ∧
      s.g_deviceContexts.contains (BeginPaint P h lpPaint s).1 = false ∧
      (∃ dc : DeviceContext,
        (BeginPaint P h lpPaint s).2.2.g_deviceContexts.find (BeginPaint P h lpPaint s).1 = some dc ∧
        dc.window = h) ∧
      (∀ k : HDC, k ≠ (BeginPaint P h lpPaint s).1 →
        (BeginPaint P h lpPaint s).2.2.g_deviceContexts.find k = s.g_deviceContexts.find k) ∧
      (BeginPaint P h lpPaint s).2.2.g_deviceContexts.keys.length
        = s.g_deviceContexts.keys.length + 1 ∧
      (BeginPaint P h lpPaint s).2.2.g_windows = s.g_windows ∧
      (BeginPaint P h lpPaint s).2.2.g_windows.contains h = true ∧
      (BeginPaint P h (some ps) s).2.1
        = some { ps with
                 hdc := (BeginPaint P h (some ps) s).1
                 fErase := FALSE
                 rcPaint := { left := 0, top := 0, right := w.width, bottom := w.height } } ∧
      (GetClientRect h (some ps.rcPaint) s).2.1
        = some { left := 0, top := 0, right := w.width, bottom := w.height }) := by
  constructor
  · intro hc
    have hf : s.g_windows.find h = none := (KMap.contains_eq_false_iff _ _).1 hc
    simp only [BeginPaint, hf]
  · intro w hf hinv
    have hfresh : s.g_deviceContexts.find s.g_nextDCHandle = none := by
      rw [← KMap.contains_eq_false_iff]
      cases hcon : s.g_deviceContexts.contains s.g_nextDCHandle with
      | false => rfl
      | true =>
        have hlt := hinv.2 _ ((KMap.contains_iff_mem_keys _ _).1 hcon)
        exact absurd hlt (Nat.lt_irrefl _)
    have hb : ∀ lp : Option PAINTSTRUCT, (BeginPaint P h lp s).1 = s.g_nextDCHandle ∧
        (BeginPaint P h lp s).2.2 =
          { s with
            g_nextDCHandle := nextHandle s.g_nextDCHandle
            g_deviceContexts := s.g_deviceContexts.insert s.g_nextDCHandle
              { window := h
                platformContext := P.BeginPlatformPaint s.platformCalls w.platformWindow }
            platformCalls :=
              s.platformCalls ++ [PlatformCall.BeginPlatformPaint w.platformWindow] } := by
      intro lp
      cases lp <;> simp only [BeginPaint, hf, and_self]
    have hps : (BeginPaint P h (some ps) s).2.1
        = some { ps with
                 hdc := s.g_nextDCHandle
                 fErase := FALSE
                 rcPaint := { left := 0, top := 0, right := w.width, bottom := w.height } } := by
      simp only [BeginPaint, GetClientRect, hf]
    rw [hps, (hb (some ps)).1, (hb lpPaint).1, (hb lpPaint).2]
    refine ⟨rfl, Nat.pos_iff_ne_zero.1 hinv.1, (KMap.contains_eq_false_iff _ _).2 hfresh,
      ⟨_, KMap.find_insert_self _ _ _, rfl⟩, ?_, ?_, rfl, ?_, rfl, ?_⟩
    · intro k hk
      exact KMap.find_insert_ne _ _ _ _ hk
    · exact KMap.length_keys_insert _ _ _ hfresh
    · exact (KMap.contains_eq_true_iff _ _).2 ⟨w, hf⟩
    · simp only [GetClientRect, hf]

/-- C10, for the demo's window in the state after `CreateWindowEx`, and for the unknown
handle 7. -/
theorem beginPaint_allocates_device_context_witness :
    BeginPaint stubPlatform 7 none helloCreated.2 = (0, none, helloCreated.2) ∧
    (BeginPaint stubPlatform 1 none helloCreated.2).1 = 1 ∧
    (BeginPaint stubPlatform 1 none helloCreated.2).2.2.g_deviceContexts.keys.length = 1 :=
  have h := beginPaint_allocates_device_context stubPlatform helloCreated.2 7 none
    { hdc := 0, fErase := 0, rcPaint := ⟨0, 0, 0, 0⟩, fRestore := 0, fIncUpdate := 0,
      rgbReserved := [] }
  have h1 := (beginPaint_allocates_device_context stubPlatform helloCreated.2 1 none
    { hdc := 0, fErase := 0, rcPaint := ⟨0, 0, 0, 0⟩, fRestore := 0, fIncUpdate := 0,
      rgbReserved := [] }).2
    { title := "Hello World - Cross Platform Win32", x := 300, y := 300, width := 500,
      height := 400, visible := false, wndProc := WindowProc_ptr, platformWindow := 9999 }
    (by decide) ⟨by decide, by decide⟩
  ⟨h.1 (by decide), h1.1.trans (by decide), h1.2.2.2.2.2.1.trans (by decide)⟩

/-! ## The device-context counter stays above the table -/

theorem KMap.mem_keys_insert {α : Type} (m : KMap α) (k a : Nat) (v : α) :
    k ∈ (m.insert a v).keys ↔ k = a ∨ k ∈ m.keys := by
  rw [← KMap.contains_iff_mem_keys, ← KMap.contains_iff_mem_keys]
  by_cases h : k = a
  · subst h
    simp [KMap.contains, KMap.find_insert_self]
  · simp [KMap.contains, KMap.find_insert_ne _ _ _ _ h, h]

theorem KMap.mem_keys_of_mem_keys_erase {α : Type} (m : KMap α) (k a : Nat)
    (h : k ∈ (m.erase a).keys) : k ∈ m.keys := by
  rw [← KMap.contains_iff_mem_keys] at h ⊢
  by_cases hk : k = a
  · subst hk
    simp [KMap.contains, KMap.find_erase_self] at h
  · simpa [KMap.contains, KMap.find_erase_ne _ _ _ hk] using h

theorem dcHandlesBelowCounter_init : DCHandlesBelowCounter State.init :=
  ⟨by decide, by decide⟩

/-- `BeginPaint` keeps the counter above the table as long as the counter does not wrap. -/
theorem BeginPaint_dcHandlesBelowCounter (P : Platform) (h : HWND) (lpPaint : Option PAINTSTRUCT)
    (s : State) (hinv : DCHandlesBelowCounter s) (hwrap : s.g_nextDCHandle + 1 < 2 ^ PTR_BITS) :
    DCHandlesBelowCounter (BeginPaint P h lpPaint s).2.2 := by
  have hnext : nextHandle s.g_nextDCHandle = s.g_nextDCHandle + 1 := Nat.mod_eq_of_lt hwrap
  cases hf : s.g_windows.find h with
  | none =>
    simp only [BeginPaint, hf]
    exact hinv
  | some w =>
    have key : DCHandlesBelowCounter
        { s with
          g_nextDCHandle := nextHandle s.g_nextDCHandle
          g_deviceContexts := s.g_deviceContexts.insert s.g_nextDCHandle
            { window := h
              platformContext := P.BeginPlatformPaint s.platformCalls w.platformWindow }
          platformCalls :=
            s.platformCalls ++ [PlatformCall.BeginPlatformPaint w.platformWindow] } := by
      refine ⟨?_, ?_⟩
      · show 0 < nextHandle s.g_nextDCHandle
        rw [hnext]
        exact Nat.succ_pos _
      · intro k hk
        show k < nextHandle s.g_nextDCHandle
        rw [hnext]
        rcases (KMap.mem_keys_insert _ _ _ _).1 hk with h1 | h1
        · rw [h1]
          exact Nat.lt_succ_self _
        · exact Nat.lt_succ_of_lt (hinv.2 k h1)
    cases lpPaint with
    | none =>
      simp only [BeginPaint, hf]
      exact key
    | some ps =>
      simp only [BeginPaint, hf]
      exact key

/-- `EndPaint` keeps the counter above the table. -/
theorem EndPaint_dcHandlesBelowCounter (h : HWND) (lpPaint : Option PAINTSTRUCT) (s : State)
    (hinv : DCHandlesBelowCounter s) : DCHandlesBelowCounter (EndPaint h lpPaint s).2 := by
  unfold EndPaint
  split
  · split
    · split
      · exact ⟨hinv.1, fun k hk => hinv.2 k (KMap.mem_keys_of_mem_keys_erase _ _ _ hk)⟩
      · exact hinv
    · exact hinv
  · exact hinv

/-! ## End of the paint cycle -/

theorem KMap.eraseRaw_of_findRaw_none {α : Type} (k : Nat) (l : List (Nat × α))
    (h : KMap.findRaw k l = none) : KMap.eraseRaw k l = l := by
  induction l with
  | nil => rfl
  | cons e t ih =>
    have hne : e.1 ≠ k := by
      intro heq
      simp [KMap.findRaw, heq] at h
    have ht : KMap.findRaw k t = none := by
      simpa [KMap.findRaw, hne] using h
    unfold KMap.eraseRaw at ih ⊢
    rw [List.filter_cons_of_pos (by simp [hne]), ih ht]

theorem KMap.eraseRaw_insertRaw {α : Type} (k : Nat) (v : α) (l : List (Nat × α))
    (h : KMap.findRaw k l = none) : KMap.eraseRaw k (KMap.insertRaw k v l) = l := by
  induction l with
  | nil => simp [KMap.insertRaw, KMap.eraseRaw]
  | cons e t ih =>
    have hne : e.1 ≠ k := by
      intro heq
      simp [KMap.findRaw, heq] at h
    have ht : KMap.findRaw k t = none := by
      simpa [KMap.findRaw, hne] using h
    simp only [KMap.insertRaw]
    split
    · have h2 := KMap.eraseRaw_of_findRaw_none k (e :: t) h
      unfold KMap.eraseRaw at h2 ⊢
      rw [List.filter_cons_of_neg (by simp), h2]
    · split
      · rename_i h2
        exact absurd h2.symm hne
      · have h3 := ih ht
        unfold KMap.eraseRaw at h3 ⊢
        rw [List.filter_cons_of_pos (by simp [hne]), h3]

/-- Erasing a key that has just been inserted as a new key gives the map back. -/
theorem KMap.erase_insert {α : Type} (m : KMap α) (k : Nat) (v : α) (h : m.find k = none) :
    (m.insert k v).erase k = m :=
  Subtype.ext (KMap.eraseRaw_insertRaw k v m.1 h)

/-- C11: `EndPaint(h, ps)` returns `TRUE` exactly when `ps` is present and `ps.hdc` is a
key of the device-context table (the null handle not being a key, as in every state the
counter reaches before it wraps); it then discards the record of `ps.hdc` and nothing
else: every other device-context record, the window table, the message queue, the class
registry, the counters and the quit flag are as before. In every other case it returns
`FALSE` and the state is unchanged. And on a tracked window, in a state whose
device-context counter is above the table, `BeginPaint(h, ps)` followed by
`EndPaint(h, ps)` returns `TRUE` and the device-context table is again what it was before
`BeginPaint`. -/
theorem endPaint_discards_device_context (P : Platform) (s : State) (h : HWND)
    (lpPaint : Option PAINTSTRUCT) (ps0 : PAINTSTRUCT) :
    (s.g_deviceContexts.contains 0 = false →
      ((EndPaint h lpPaint s).1 = TRUE ↔
        ∃ ps : PAINTSTRUCT, lpPaint = some ps ∧ s.g_deviceContexts.contains ps.hdc = true)) ∧
    ((EndPaint h lpPaint s).1 = TRUE →
      ∃ ps : PAINTSTRUCT, lpPaint = some ps ∧
        s.g_deviceContexts.contains ps.hdc = true ∧
        (EndPaint h lpPaint s).2.g_deviceContexts = s.g_deviceContexts.erase ps.hdc ∧
        (EndPaint h lpPaint s).2.g_deviceContexts.contains ps.hdc = false ∧
        (∀ k : HDC, k ≠ ps.hdc →
          (EndPaint h lpPaint s).2.g_deviceContexts.find k = s.g_deviceContexts.find k) ∧
        (EndPaint h lpPaint s).2.g_windows = s.g_windows ∧
        (EndPaint h lpPaint s).2.g_messageQueue = s.g_messageQueue ∧
        (EndPaint h lpPaint s).2.g_windowClasses = s.g_windowClasses ∧
        (EndPaint h lpPaint s).2.g_nextWindowHandle = s.g_nextWindowHandle ∧
        (EndPaint h lpPaint s).2.g_nextDCHandle = s.g_nextDCHandle ∧
        (EndPaint h lpPaint s).2.g_quitPosted = s.g_quitPosted) ∧
    ((EndPaint h lpPaint s).1 = TRUE ∨ EndPaint h lpPaint s = (FALSE, s)) ∧
    (s.g_windows.contains h = true → DCHandlesBelowCounter s →
      (EndPaint h (BeginPaint P h (some ps0) s).2.1 (BeginPaint P h (some ps0) s).2.2).1 = TRUE ∧
      (EndPaint h (BeginPaint P h (some ps0) s).2.1
        (BeginPaint P h (some ps0) s).2.2).2.g_deviceContexts = s.g_deviceContexts) := by
  have hcases : ∀ (t : State) (lp : Option PAINTSTRUCT),
      (∃ ps dc, lp = some ps ∧ ps.hdc ≠ 0 ∧ t.g_deviceContexts.find ps.hdc = some dc ∧
        EndPaint h lp t = (TRUE,
          { t with
            g_deviceContexts := t.g_deviceContexts.erase ps.hdc
            platformCalls :=
              match t.g_windows.find h with
              | some w =>
                t.platformCalls ++ [PlatformCall.EndPlatformPaint w.platformWindow dc.platformContext]
              | none => t.platformCalls })) ∨
      (EndPaint h lp t = (FALSE, t) ∧
        ∀ ps, lp = some ps → ps.hdc = 0 ∨ t.g_deviceContexts.find ps.hdc = none) := by
    intro t lp
    cases lp with
    | none => exact Or.inr ⟨rfl, fun ps hps => by cases hps⟩
    | some ps =>
      by_cases hz : ps.hdc = 0
      · refine Or.inr ⟨?_, fun ps2 hps => ?_⟩
        · simp only [EndPaint, hz, ne_eq, not_true_eq_false, if_false]
        · cases hps
          exact Or.inl hz
      · cases hf : t.g_deviceContexts.find ps.hdc with
        | none =>
          refine Or.inr ⟨?_, fun ps2 hps => ?_⟩
          · simp only [EndPaint, hz, hf, ne_eq, not_false_eq_true, if_true]
          · cases hps
            exact Or.inr hf
        | some dc =>
          refine Or.inl ⟨ps, dc, rfl, hz, hf, ?_⟩
          simp only [EndPaint, hz, hf, ne_eq, not_false_eq_true, if_true]
  have hTF : TRUE ≠ FALSE := by decide
  refine ⟨?_, ?_, ?_, ?_⟩
  · intro hnull
    rcases hcases s lpPaint with ⟨ps, dc, hlp, hz, hf, he⟩ | ⟨he, hno⟩
    · rw [he]
      exact ⟨fun _ => ⟨ps, hlp, (KMap.contains_eq_true_iff _ _).2 ⟨dc, hf⟩⟩, fun _ => rfl⟩
    · rw [he]
      constructor
      · intro habs
        exact absurd habs.symm hTF
      · rintro ⟨ps, hlp, hc⟩
        rcases hno ps hlp with hz | hf
        · rw [hz, hnull] at hc
          cases hc
        · rw [(KMap.contains_eq_false_iff _ _).2 hf] at hc
          cases hc
  · intro htrue
    rcases hcases s lpPaint with ⟨ps, dc, hlp, hz, hf, he⟩ | ⟨he, hno⟩
    · rw [he]
      refine ⟨ps, hlp, (KMap.contains_eq_true_iff _ _).2 ⟨dc, hf⟩, rfl, ?_, ?_, rfl, rfl, rfl,
        rfl, rfl, rfl⟩
      · exact (KMap.contains_eq_false_iff _ _).2 (KMap.find_erase_self _ _)
      · intro k hk
        exact KMap.find_erase_ne _ _ _ hk
    · rw [he] at htrue
      exact absurd htrue.symm hTF
  · rcases hcases s lpPaint with ⟨ps, dc, hlp, hz, hf, he⟩ | ⟨he, hno⟩
    · exact Or.inl (by rw [he])
    · exact Or.inr he
  · intro htracked hinv
    obtain ⟨w, hw⟩ := (KMap.contains_eq_true_iff _ _).1 htracked
    have hfresh : s.g_deviceContexts.find s.g_nextDCHandle = none := by
      rw [← KMap.contains_eq_false_iff]
      cases hcon : s.g_deviceContexts.contains s.g_nextDCHandle with
      | false => rfl
      | true =>
        have hlt := hinv.2 _ ((KMap.contains_iff_mem_keys _ _).1 hcon)
        exact absurd hlt (Nat.lt_irrefl _)
    have hnz : s.g_nextDCHandle ≠ 0 := Nat.pos_iff_ne_zero.1 hinv.1
    have hb : BeginPaint P h (some ps0) s = (s.g_nextDCHandle,
        some { ps0 with
               hdc := s.g_nextDCHandle
               fErase := FALSE
               rcPaint := { left := 0, top := 0, right := w.width, bottom := w.height } },
        { s with
          g_nextDCHandle := nextHandle s.g_nextDCHandle
          g_deviceContexts := s.g_deviceContexts.insert s.g_nextDCHandle
            { window := h
              platformContext := P.BeginPlatformPaint s.platformCalls w.platformWindow }
          platformCalls :=
            s.platformCalls ++ [PlatformCall.BeginPlatformPaint w.platformWindow] }) := by
      simp only [BeginPaint, GetClientRect, hw]
    rw [hb]
    simp only [EndPaint, hnz, ne_eq, not_false_eq_true, if_true, KMap.find_insert_self,
      KMap.erase_insert _ _ _ hfresh, and_self]

/-- C11, for one paint cycle on the demo's window, and for an `EndPaint` whose `hdc` was
never handed out. -/
theorem endPaint_discards_device_context_witness :
    (EndPaint 1 (BeginPaint stubPlatform 1
        (some ⟨0, 0, ⟨0, 0, 0, 0⟩, 0, 0, []⟩) helloCreated.2).2.1
      (BeginPaint stubPlatform 1 (some ⟨0, 0, ⟨0, 0, 0, 0⟩, 0, 0, []⟩) helloCreated.2).2.2).1
      = TRUE ∧
    (EndPaint 1 (BeginPaint stubPlatform 1
        (some ⟨0, 0, ⟨0, 0, 0, 0⟩, 0, 0, []⟩) helloCreated.2).2.1
      (BeginPaint stubPlatform 1
        (some ⟨0, 0, ⟨0, 0, 0, 0⟩, 0, 0, []⟩) helloCreated.2).2.2).2.g_deviceContexts.keys = [] ∧
    ¬ (EndPaint 1 (some ⟨5, 0, ⟨0, 0, 0, 0⟩, 0, 0, []⟩) helloCreated.2).1 = TRUE :=
  have h := endPaint_discards_device_context stubPlatform helloCreated.2 1
    (some ⟨5, 0, ⟨0, 0, 0, 0⟩, 0, 0, []⟩) ⟨0, 0, ⟨0, 0, 0, 0⟩, 0, 0, []⟩
  have hcycle := h.2.2.2 (by decide) ⟨by decide, by decide⟩
  ⟨hcycle.1, (congrArg KMap.keys hcycle.2).trans (by decide),
   fun ht => absurd ((h.1 (by decide)).1 ht) (by decide)⟩

/-! ## Text drawing -/

theorem windowStep_refl (s : State) : WindowStep s s := Or.inl ⟨rfl, rfl, fun _ hk => hk⟩

theorem dcStep_refl (s : State) : DCStep s s := Or.inl ⟨rfl, rfl, fun _ hk => hk⟩

theorem KMap.mem_keys_insert_of_find {α : Type} (m : KMap α) (a k : Nat) (v w : α)
    (hf : m.find a = some w) (hk : k ∈ (m.insert a v).keys) : k ∈ m.keys := by
  rcases (KMap.mem_keys_insert m k a v).1 hk with h | h
  · rw [h]
    exact (KMap.contains_iff_mem_keys _ _).1 ((KMap.contains_eq_true_iff _ _).2 ⟨w, hf⟩)
  · exact h

theorem handleInvariantFrom_of_step (n m : Nat) (s t : State) (hw : WindowStep s t)
    (hd : DCStep s t) (hs : HandleInvariantFrom n m s) : HandleInvariantFrom n m t := by
  obtain ⟨⟨hcw, hcd, hkw, hkd⟩, hn, hm⟩ := hs
  have hmodw : nextHandle s.g_nextWindowHandle = (1 + (windowsCreated s + 1)) % 2 ^ PTR_BITS := by
    rw [hcw]
    unfold nextHandle
    rw [Nat.mod_add_mod, Nat.add_assoc]
  have hmodd : nextHandle s.g_nextDCHandle = (1 + (paintsBegun s + 1)) % 2 ^ PTR_BITS := by
    rw [hcd]
    unfold nextHandle
    rw [Nat.mod_add_mod, Nat.add_assoc]
  refine ⟨⟨?_, ?_, ?_, ?_⟩, ?_, ?_⟩
  · rcases hw with ⟨h1, h2, _⟩ | ⟨h1, h2, _⟩
    · rw [h1, h2, hcw]
    · rw [h1, h2, hmodw]
  · rcases hd with ⟨h1, h2, _⟩ | ⟨h1, h2, _⟩
    · rw [h1, h2, hcd]
    · rw [h1, h2, hmodd]
  · intro hlt k hk
    rcases hw with ⟨h1, h2, h3⟩ | ⟨h1, h2, h3⟩
    · rw [h1] at hlt ⊢
      exact hkw hlt k (h3 k hk)
    · rw [h1] at hlt ⊢
      have hlt2 : 1 + windowsCreated s < 2 ^ PTR_BITS := by omega
      rcases h3 k hk with h4 | h4
      · rw [h4, hcw, Nat.mod_eq_of_lt hlt2]
        omega
      · have := hkw hlt2 k h4
        omega
  · intro hlt k hk
    rcases hd with ⟨h1, h2, h3⟩ | ⟨h1, h2, h3⟩
    · rw [h1] at hlt ⊢
      exact hkd hlt k (h3 k hk)
    · rw [h1] at hlt ⊢
      have hlt2 : 1 + paintsBegun s < 2 ^ PTR_BITS := by omega
      rcases h3 k hk with h4 | h4
      · rw [h4, hcd, Nat.mod_eq_of_lt hlt2]
        omega
      · have := hkd hlt2 k h4
        omega
  · rcases hw with ⟨h1, _, _⟩ | ⟨h1, _, _⟩ <;> omega
  · rcases hd with ⟨h1, _, _⟩ | ⟨h1, _, _⟩ <;> omega

theorem RegisterClassEx_step (wc : Option WNDCLASSEX) (s : State) :
    WindowStep s (RegisterClassEx wc s).2 ∧ DCStep s (RegisterClassEx wc s).2 := by
  unfold RegisterClassEx
  split
  · split
    · exact ⟨Or.inl ⟨rfl, rfl, fun _ hk => hk⟩, Or.inl ⟨rfl, rfl, fun _ hk => hk⟩⟩
    · exact ⟨windowStep_refl s, dcStep_refl s⟩
  · exact ⟨windowStep_refl s, dcStep_refl s⟩

theorem CreateWindowEx_step (P : Platform) (dwExStyle : DWORD) (lpClassName : String)
    (lpWindowName : Option String) (dwStyle : DWORD) (X Y nWidth nHeight : Int)
    (hWndParent : HWND) (hMenu : Nat) (hInstance : HINSTANCE) (lpParam : Nat) (s : State) :
    WindowStep s (CreateWindowEx P dwExStyle lpClassName lpWindowName dwStyle X Y nWidth nHeight
      hWndParent hMenu hInstance lpParam s).2 ∧
    DCStep s (CreateWindowEx P dwExStyle lpClassName lpWindowName dwStyle X Y nWidth nHeight
      hWndParent hMenu hInstance lpParam s).2 := by
  refine ⟨Or.inr ⟨?_, rfl, ?_⟩, Or.inl ⟨?_, rfl, fun _ hk => hk⟩⟩
  · simp [CreateWindowEx, windowsCreated, List.countP_append, isCreatePlatformWindow]
  · intro k hk
    exact (KMap.mem_keys_insert _ _ _ _).1 hk
  · simp [CreateWindowEx, paintsBegun, List.countP_append, isBeginPlatformPaint]

theorem ShowWindow_step (h : HWND) (n : Int) (s : State) :
    WindowStep s (ShowWindow h n s).2 ∧ DCStep s (ShowWindow h n s).2 := by
  cases hf : s.g_windows.find h with
  | none =>
    simp only [ShowWindow, hf]
    exact ⟨windowStep_refl s, dcStep_refl s⟩
  | some w =>
    simp only [ShowWindow, hf]
    refine ⟨Or.inl ⟨?_, rfl, fun k hk => KMap.mem_keys_insert_of_find _ _ _ _ _ hf hk⟩,
      Or.inl ⟨?_, rfl, fun _ hk => hk⟩⟩
    · by_cases hv : n = 0 <;>
        simp [windowsCreated, hv, List.countP_append, isCreatePlatformWindow]
    · by_cases hv : n = 0 <;>
        simp [paintsBegun, hv, List.countP_append, isBeginPlatformPaint]

theorem UpdateWindow_step (h : HWND) (s : State) :
    WindowStep s (UpdateWindow h s).2 ∧ DCStep s (UpdateWindow h s).2 :=
  ⟨Or.inl ⟨rfl, rfl, fun _ hk => hk⟩, Or.inl ⟨rfl, rfl, fun _ hk => hk⟩⟩

theorem DestroyWindow_step (h : HWND) (s : State) :
    WindowStep s (DestroyWindow h s).2 ∧ DCStep s (DestroyWindow h s).2 := by
  cases hf : s.g_windows.find h with
  | none =>
    simp only [DestroyWindow, hf]
    exact ⟨windowStep_refl s, dcStep_refl s⟩
  | some w =>
    simp only [DestroyWindow, hf]
    refine ⟨Or.inl ⟨?_, rfl, fun k hk => KMap.mem_keys_of_mem_keys_erase _ _ _ hk⟩,
      Or.inl ⟨?_, rfl, fun _ hk => hk⟩⟩
    · simp [windowsCreated, List.countP_append, isCreatePlatformWindow]
    · simp [paintsBegun, List.countP_append, isBeginPlatformPaint]

theorem InvalidateRect_step (h : HWND) (rc : Option RECT) (e : BOOL) (s : State) :
    WindowStep s (InvalidateRect h rc e s).2 ∧ DCStep s (InvalidateRect h rc e s).2 := by
  cases hf : s.g_windows.find h with
  | none =>
    simp only [InvalidateRect, hf]
    exact ⟨windowStep_refl s, dcStep_refl s⟩
  | some w =>
    simp only [InvalidateRect, hf]
    refine ⟨Or.inl ⟨?_, rfl, fun _ hk => hk⟩, Or.inl ⟨?_, rfl, fun _ hk => hk⟩⟩
    · simp [windowsCreated, List.countP_append, isCreatePlatformWindow]
    · simp [paintsBegun, List.countP_append, isBeginPlatformPaint]

theorem SetWindowText_step (h : HWND) (str : Option String) (s : State) :
    WindowStep s (SetWindowText h str s).2 ∧ DCStep s (SetWindowText h str s).2 := by
  cases hf : s.g_windows.find h with
  | none =>
    simp only [SetWindowText, hf]
    exact ⟨windowStep_refl s, dcStep_refl s⟩
  | some w =>
    simp only [SetWindowText, hf]
    exact ⟨Or.inl ⟨rfl, rfl, fun k hk => KMap.mem_keys_insert_of_find _ _ _ _ _ hf hk⟩,
      Or.inl ⟨rfl, rfl, fun _ hk => hk⟩⟩

theorem GetMessage_step (m : MSG) (h : HWND) (lo hi : UINT) (s : State) :
    WindowStep s (GetMessage m h lo hi s).2.2 ∧ DCStep s (GetMessage m h lo hi s).2.2 := by
  have hlog : ∀ (q : List MSG),
      WindowStep s { s with
        g_messageQueue := q
        platformCalls := s.platformCalls ++ [PlatformCall.ProcessPlatformEvents] } ∧
      DCStep s { s with
        g_messageQueue := q
        platformCalls := s.platformCalls ++ [PlatformCall.ProcessPlatformEvents] } := by
    intro q
    refine ⟨Or.inl ⟨?_, rfl, fun _ hk => hk⟩, Or.inl ⟨?_, rfl, fun _ hk => hk⟩⟩
    · simp [windowsCreated, List.countP_append, isCreatePlatformWindow]
    · simp [paintsBegun, List.countP_append, isBeginPlatformPaint]
  unfold GetMessage
  split
  · exact ⟨windowStep_refl s, dcStep_refl s⟩
  · dsimp only
    split
    · exact hlog _
    · split
      · exact hlog _
      · exact hlog _

theorem PostQuitMessage_step (n : Int) (s : State) :
    WindowStep s (PostQuitMessage n s) ∧ DCStep s (PostQuitMessage n s) :=
  ⟨Or.inl ⟨rfl, rfl, fun _ hk => hk⟩, Or.inl ⟨rfl, rfl, fun _ hk => hk⟩⟩

theorem BeginPaint_step (P : Platform) (h : HWND) (ps : Option PAINTSTRUCT) (s : State) :
    WindowStep s (BeginPaint P h ps s).2.2 ∧ DCStep s (BeginPaint P h ps s).2.2 := by
  cases hf : s.g_windows.find h with
  | none =>
    simp only [BeginPaint, hf]
    exact ⟨windowStep_refl s, dcStep_refl s⟩
  | some w =>
    have key : WindowStep s
        { s with
          g_nextDCHandle := nextHandle s.g_nextDCHandle
          g_deviceContexts := s.g_deviceContexts.insert s.g_nextDCHandle
            { window := h
              platformContext := P.BeginPlatformPaint s.platformCalls w.platformWindow }
          platformCalls :=
            s.platformCalls ++ [PlatformCall.BeginPlatformPaint w.platformWindow] } ∧
        DCStep s
        { s with
          g_nextDCHandle := nextHandle s.g_nextDCHandle
          g_deviceContexts := s.g_deviceContexts.insert s.g_nextDCHandle
            { window := h
              platformContext := P.BeginPlatformPaint s.platformCalls w.platformWindow }
          platformCalls :=
            s.platformCalls ++ [PlatformCall.BeginPlatformPaint w.platformWindow] } := by
      refine ⟨Or.inl ⟨?_, rfl, fun _ hk => hk⟩, Or.inr ⟨?_, rfl, ?_⟩⟩
      · simp [windowsCreated, List.countP_append, isCreatePlatformWindow]
      · simp [paintsBegun, List.countP_append, isBeginPlatformPaint]
      · intro k hk
        exact (KMap.mem_keys_insert _ _ _ _).1 hk
    cases ps with
    | none =>
      simp only [BeginPaint, hf]
      exact key
    | some p =>
      simp only [BeginPaint, hf]
      exact key

theorem EndPaint_step (h : HWND) (ps : Option PAINTSTRUCT) (s : State) :
    WindowStep s (EndPaint h ps s).2 ∧ DCStep s (EndPaint h ps s).2 := by
  unfold EndPaint
  split
  · split
    · split
      · refine ⟨Or.inl ⟨?_, rfl, fun _ hk => hk⟩,
          Or.inl ⟨?_, rfl, fun k hk => KMap.mem_keys_of_mem_keys_erase _ _ _ hk⟩⟩
        · cases s.g_windows.find h <;>
            simp [windowsCreated, List.countP_append, isCreatePlatformWindow]
        · cases s.g_windows.find h <;>
            simp [paintsBegun, List.countP_append, isBeginPlatformPaint]
      · exact ⟨windowStep_refl s, dcStep_refl s⟩
    · exact ⟨windowStep_refl s, dcStep_refl s⟩
  · exact ⟨windowStep_refl s, dcStep_refl s⟩

theorem DrawText_step (hdc : HDC) (txt : Option String) (n : Int) (rc : Option RECT)
    (fmt : UINT) (s : State) :
    WindowStep s (DrawText hdc txt n rc fmt s).2 ∧ DCStep s (DrawText hdc txt n rc fmt s).2 := by
  unfold DrawText
  split
  · refine ⟨Or.inl ⟨?_, rfl, fun _ hk => hk⟩, Or.inl ⟨?_, rfl, fun _ hk => hk⟩⟩
    · simp [windowsCreated, List.countP_append, isCreatePlatformWindow]
    · simp [paintsBegun, List.countP_append, isBeginPlatformPaint]
  · exact ⟨windowStep_refl s, dcStep_refl s⟩

theorem TextOut_step (hdc : HDC) (x y : Int) (str : Option String) (n : Int) (s : State) :
    WindowStep s (TextOut hdc x y str n s).2 ∧ DCStep s (TextOut hdc x y str n s).2 := by
  unfold TextOut
  split
  · refine ⟨Or.inl ⟨?_, rfl, fun _ hk => hk⟩, Or.inl ⟨?_, rfl, fun _ hk => hk⟩⟩
    · simp [windowsCreated, List.countP_append, isCreatePlatformWindow]
    · simp [paintsBegun, List.countP_append, isBeginPlatformPaint]
  · exact ⟨windowStep_refl s, dcStep_refl s⟩

theorem DispatchMessage_handleInvariantFrom (n m : Nat)
    (invoke : WNDPROC → HWND → UINT → WPARAM → LPARAM → State → Option LRESULT × State)
    (hinv : ∀ p h u w l (t : State), HandleInvariantFrom n m t →
      HandleInvariantFrom n m (invoke p h u w l t).2)
    (msg : Option MSG) (s : State) (hs : HandleInvariantFrom n m s) :
    HandleInvariantFrom n m (DispatchMessage invoke msg s).2 := by
  unfold DispatchMessage
  split
  · split
    · split
      · split
        · exact hinv _ _ _ _ _ _ hs
        · exact hs
      · exact hs
    · exact hs
  · exact hs

theorem stepCall_handleInvariantFrom (n m : Nat) (P : Platform)
    (dispatch : Option MSG → State → Option LRESULT × State)
    (hd : ∀ msg (t : State), HandleInvariantFrom n m t → HandleInvariantFrom n m (dispatch msg t).2)
    (c : Call) (s : State) (hs : HandleInvariantFrom n m s) :
    HandleInvariantFrom n m (stepCall P dispatch c s).2 := by
  have step : ∀ t : State, WindowStep s t ∧ DCStep s t → HandleInvariantFrom n m t :=
    fun t ht => handleInvariantFrom_of_step n m s t ht.1 ht.2 hs
  cases c with
  | RegisterClassEx wc => exact step _ (RegisterClassEx_step wc s)
  | CreateWindowEx ex cls title style X Y w h parent menu inst param =>
    exact step _ (CreateWindowEx_step P ex cls title style X Y w h parent menu inst param s)
  | ShowWindow h k => exact step _ (ShowWindow_step h k s)
  | UpdateWindow h => exact step _ (UpdateWindow_step h s)
  | DestroyWindow h => exact step _ (DestroyWindow_step h s)
  | InvalidateRect h rc e => exact step _ (InvalidateRect_step h rc e s)
  | GetClientRect h rc =>
    show HandleInvariantFrom n m (GetClientRect h rc s).2.2
    rw [GetClientRect_state]
    exact hs
  | SetWindowText h str => exact step _ (SetWindowText_step h str s)
  | GetMessage msg h lo hi => exact step _ (GetMessage_step msg h lo hi s)
  | TranslateMessage msg => exact hs
  | DispatchMessage msg => exact hd msg s hs
  | PostQuitMessage k => exact step _ (PostQuitMessage_step k s)
  | BeginPaint h ps => exact step _ (BeginPaint_step P h ps s)
  | EndPaint h ps => exact step _ (EndPaint_step h ps s)
  | DrawText hdc txt k rc fmt => exact step _ (DrawText_step hdc txt k rc fmt s)
  | TextOut hdc x y str k => exact step _ (TextOut_step hdc x y str k s)
  | SetTextColor hdc color => exact hs
  | SetBkMode hdc mode => exact hs

theorem runProg_handleInvariantFrom (n m : Nat) (P : Platform)
    (dispatch : Option MSG → State → Option LRESULT × State)
    (hd : ∀ msg (t : State), HandleInvariantFrom n m t → HandleInvariantFrom n m (dispatch msg t).2)
    (prog : Prog) (s : State) (hs : HandleInvariantFrom n m s) :
    HandleInvariantFrom n m (runProg P dispatch prog s).2 := by
  induction prog generalizing s with
  | ret result => exact hs
  | call c k ih =>
    have hstep := stepCall_handleInvariantFrom n m P dispatch hd c s hs
    unfold runProg
    cases hr : stepCall P dispatch c s with
    | mk reply s1 =>
      rw [hr] at hstep
      cases reply with
      | none => exact hstep
      | some rep => exact ih rep s1 hstep

theorem dispatchMessage_handleInvariantFrom (n m : Nat) (P : Platform) (procs : WndProcTable)
    (depth : Nat) (msg : Option MSG) (s : State) (hs : HandleInvariantFrom n m s) :
    HandleInvariantFrom n m (dispatchMessage P procs depth msg s).2 := by
  induction depth generalizing msg s with
  | zero =>
    unfold dispatchMessage
    exact DispatchMessage_handleInvariantFrom n m _ (fun _ _ _ _ _ _ ht => ht) msg s hs
  | succ d ih =>
    unfold dispatchMessage
    exact DispatchMessage_handleInvariantFrom n m _
      (fun p h u w l t ht =>
        runProg_handleInvariantFrom n m P _ (fun m2 t2 h2 => ih m2 t2 h2) _ t ht) msg s hs

/-- The invariant holds along every sequence of calls, and the numbers of handles handed
out do not go down. -/
theorem runCalls_handleInvariantFrom (n m : Nat) (P : Platform) (procs : WndProcTable)
    (depth : Nat) (calls : List Call) (s : State) (hs : HandleInvariantFrom n m s) :
    HandleInvariantFrom n m (runCalls P procs depth calls s) := by
  induction calls generalizing s with
  | nil => exact hs
  | cons c cs ih =>
    have hstep := stepCall_handleInvariantFrom n m P (dispatchMessage P procs depth)
      (fun msg t ht => dispatchMessage_handleInvariantFrom n m P procs depth msg t ht) c s hs
    unfold runCalls
    cases hr : stepCall P (dispatchMessage P procs depth) c s with
    | mk reply s1 =>
      rw [hr] at hstep
      cases reply with
      | none => exact hstep
      | some rep => exact ih s1 hstep

theorem handleInvariant_init : HandleInvariant State.init := by
  refine ⟨by decide, by decide, ?_, ?_⟩
  · intro _ k hk
    cases hk
  · intro _ k hk
    cases hk

theorem windowsCreated_CreateWindowEx (P : Platform) (dwExStyle : DWORD) (lpClassName : String)
    (lpWindowName : Option String) (dwStyle : DWORD) (X Y nWidth nHeight : Int)
    (hWndParent : HWND) (hMenu : Nat) (hInstance : HINSTANCE) (lpParam : Nat) (s : State) :
    windowsCreated (CreateWindowEx P dwExStyle lpClassName lpWindowName dwStyle X Y nWidth
      nHeight hWndParent hMenu hInstance lpParam s).2 = windowsCreated s + 1 := by
  simp [CreateWindowEx, windowsCreated, List.countP_append, isCreatePlatformWindow]

theorem BeginPaint_of_tracked (P : Platform) (h : HWND) (ps : Option PAINTSTRUCT) (s : State)
    (ht : s.g_windows.contains h = true) :
    (BeginPaint P h ps s).1 = s.g_nextDCHandle ∧
    paintsBegun (BeginPaint P h ps s).2.2 = paintsBegun s + 1 := by
  obtain ⟨w, hf⟩ := (KMap.contains_eq_true_iff _ _).1 ht
  cases ps with
  | none =>
    simp [BeginPaint, hf, paintsBegun, List.countP_append, isBeginPlatformPaint]
  | some p =>
    simp [BeginPaint, hf, paintsBegun, List.countP_append, isBeginPlatformPaint]

theorem not_contains_of_keys_le {α : Type} (m : KMap α) (c : Nat)
    (h : ∀ k ∈ m.keys, 0 < k ∧ k ≤ c) : m.contains (1 + c) = false := by
  cases hc : m.contains (1 + c) with
  | false => rfl
  | true =>
    have := (h _ ((KMap.contains_iff_mem_keys _ _).1 hc)).2
    omega

/-- C14: handles are unique for the lifetime of the process. In every state `s1` reached
from the initial state by a finite sequence of calls, each counter is one plus the number
of handles handed out so far (modulo `2 ^ 64`). As long as the counters have not wrapped
around: the handle returned by `CreateWindowEx` in `s1` is non-null, is not a key of
the window table, and is less than the handle returned by any `CreateWindowEx` made later,
after any further sequence of calls, so it differs from it whatever has been destroyed in
between; the same holds for the device-context handles returned by `BeginPaint` on
tracked windows; every key of the window table is below the window counter and every key
of the device-context table below the device-context counter; and across any further
sequence of calls neither counter decreases. -/
theorem handles_are_unique (P : Platform) (procs : WndProcTable) (depth : Nat)
    (calls calls2 : List Call) (ex1 ex2 : DWORD) (cls1 cls2 : String)
    (title1 title2 : Option String) (style1 style2 : DWORD)
    (X1 Y1 W1 H1 X2 Y2 W2 H2 : Int) (parent1 parent2 : HWND) (menu1 menu2 : Nat)
    (inst1 inst2 : HINSTANCE) (param1 param2 : Nat) (hp1 hp2 : HWND)
    (ps1 ps2 : Option PAINTSTRUCT) :
    let s1 := runCalls P procs depth calls State.init
    let c1 := CreateWindowEx P ex1 cls1 title1 style1 X1 Y1 W1 H1 parent1 menu1 inst1 param1 s1
    let c2 := CreateWindowEx P ex2 cls2 title2 style2 X2 Y2 W2 H2 parent2 menu2 inst2 param2
      (runCalls P procs depth calls2 c1.2)
    let b1 := BeginPaint P hp1 ps1 s1
    let b2 := BeginPaint P hp2 ps2 (runCalls P procs depth calls2 b1.2.2)
    HandleInvariant s1 ∧
    (BelowWrap c2.2 → c1.1 ≠ 0 ∧ c1.1 < c2.1 ∧ s1.g_windows.contains c1.1 = false) ∧
    (s1.g_windows.contains hp1 = true →
      (runCalls P procs depth calls2 b1.2.2).g_windows.contains hp2 = true →
      BelowWrap b2.2.2 →
      b1.1 ≠ 0 ∧ b1.1 < b2.1 ∧ s1.g_deviceContexts.contains b1.1 = false) ∧
    (BelowWrap s1 →
      (∀ k ∈ s1.g_windows.keys, k < s1.g_nextWindowHandle) ∧
      (∀ k ∈ s1.g_deviceContexts.keys, k < s1.g_nextDCHandle)) ∧
    (BelowWrap (runCalls P procs depth calls2 s1) →
      s1.g_nextWindowHandle ≤ (runCalls P procs depth calls2 s1).g_nextWindowHandle ∧
      s1.g_nextDCHandle ≤ (runCalls P procs depth calls2 s1).g_nextDCHandle) := by
  intro s1 c1 c2 b1 b2
  have h1 : HandleInvariantFrom 0 0 s1 :=
    runCalls_handleInvariantFrom 0 0 P procs depth calls State.init
      ⟨handleInvariant_init, Nat.zero_le _, Nat.zero_le _⟩
  have h1' : HandleInvariantFrom (windowsCreated s1) (paintsBegun s1) s1 :=
    ⟨h1.1, Nat.le_refl _, Nat.le_refl _⟩
  obtain ⟨hcw, hcd, hkw, hkd⟩ := h1.1
  refine ⟨h1.1, ?_, ?_, ?_, ?_⟩
  · intro hbw
    -- the state after the first creation, and the state the second creation starts from
    have hn1 : windowsCreated c1.2 = windowsCreated s1 + 1 :=
      windowsCreated_CreateWindowEx P ex1 cls1 title1 style1 X1 Y1 W1 H1 parent1 menu1 inst1
        param1 s1
    have hc1 : HandleInvariantFrom (windowsCreated s1 + 1) 0 c1.2 := by
      have hstep := CreateWindowEx_step P ex1 cls1 title1 style1 X1 Y1 W1 H1 parent1 menu1 inst1
        param1 s1
      have := handleInvariantFrom_of_step 0 0 s1 c1.2 hstep.1 hstep.2 h1
      exact ⟨this.1, by rw [hn1], Nat.zero_le _⟩
    have h2 := runCalls_handleInvariantFrom (windowsCreated s1 + 1) 0 P procs depth calls2 c1.2 hc1
    have hn2 : windowsCreated c2.2
        = windowsCreated (runCalls P procs depth calls2 c1.2) + 1 :=
      windowsCreated_CreateWindowEx P ex2 cls2 title2 style2 X2 Y2 W2 H2 parent2 menu2 inst2
        param2 _
    have hlt2 : 1 + (windowsCreated (runCalls P procs depth calls2 c1.2) + 1) < 2 ^ PTR_BITS := by
      have := hbw.1
      rw [hn2] at this
      exact this
    have hge := h2.2.1
    have hlt1 : 1 + windowsCreated s1 < 2 ^ PTR_BITS := by omega
    have e1 : c1.1 = 1 + windowsCreated s1 := by
      show s1.g_nextWindowHandle = _
      rw [hcw, Nat.mod_eq_of_lt hlt1]
    have e2 : c2.1 = 1 + windowsCreated (runCalls P procs depth calls2 c1.2) := by
      show (runCalls P procs depth calls2 c1.2).g_nextWindowHandle = _
      rw [h2.1.1, Nat.mod_eq_of_lt (by omega)]
    have hpos : 0 < 1 + windowsCreated s1 := by omega
    have hlt : 1 + windowsCreated s1 < 1 + windowsCreated (runCalls P procs depth calls2 c1.2) := by
      omega
    refine ⟨by rw [e1]; exact Nat.pos_iff_ne_zero.1 hpos, by rw [e1, e2]; exact hlt, ?_⟩
    rw [e1]
    exact not_contains_of_keys_le _ _ (hkw hlt1)
  · intro ht1 ht2 hbw
    have hb1 := BeginPaint_of_tracked P hp1 ps1 s1 ht1
    have hb2 := BeginPaint_of_tracked P hp2 ps2 (runCalls P procs depth calls2 b1.2.2) ht2
    have hc1 : HandleInvariantFrom 0 (paintsBegun s1 + 1) b1.2.2 := by
      have hstep := BeginPaint_step P hp1 ps1 s1
      have := handleInvariantFrom_of_step 0 0 s1 b1.2.2 hstep.1 hstep.2 h1
      exact ⟨this.1, Nat.zero_le _, by rw [hb1.2]⟩
    have h2 := runCalls_handleInvariantFrom 0 (paintsBegun s1 + 1) P procs depth calls2 b1.2.2 hc1
    have hlt2 : 1 + (paintsBegun (runCalls P procs depth calls2 b1.2.2) + 1) < 2 ^ PTR_BITS := by
      have := hbw.2
      rw [hb2.2] at this
      exact this
    have hge := h2.2.2
    have hlt1 : 1 + paintsBegun s1 < 2 ^ PTR_BITS := by omega
    have e1 : b1.1 = 1 + paintsBegun s1 := by
      rw [hb1.1, hcd, Nat.mod_eq_of_lt hlt1]
    have e2 : b2.1 = 1 + paintsBegun (runCalls P procs depth calls2 b1.2.2) := by
      rw [hb2.1, h2.1.2.1, Nat.mod_eq_of_lt (by omega)]
    have hpos : 0 < 1 + paintsBegun s1 := by omega
    have hlt : 1 + paintsBegun s1 < 1 + paintsBegun (runCalls P procs depth calls2 b1.2.2) := by
      omega
    refine ⟨by rw [e1]; exact Nat.pos_iff_ne_zero.1 hpos, by rw [e1, e2]; exact hlt, ?_⟩
    rw [e1]
    exact not_contains_of_keys_le _ _ (hkd hlt1)
  · intro hbw
    constructor
    · intro k hk
      rw [hcw, Nat.mod_eq_of_lt hbw.1]
      have := (hkw hbw.1 k hk).2
      omega
    · intro k hk
      rw [hcd, Nat.mod_eq_of_lt hbw.2]
      have := (hkd hbw.2 k hk).2
      omega
  · intro hbw
    have h2 := runCalls_handleInvariantFrom (windowsCreated s1) (paintsBegun s1) P procs depth
      calls2 s1 h1'
    have hw := h2.2.1
    have hd := h2.2.2
    have hlt1 : 1 + windowsCreated s1 < 2 ^ PTR_BITS := by
      have := hbw.1
      omega
    have hlt2 : 1 + paintsBegun s1 < 2 ^ PTR_BITS := by
      have := hbw.2
      omega
    rw [hcw, hcd, h2.1.1, h2.1.2.1, Nat.mod_eq_of_lt hlt1, Nat.mod_eq_of_lt hlt2,
      Nat.mod_eq_of_lt hbw.1, Nat.mod_eq_of_lt hbw.2]
    omega

/-- C14, after the start of the demo: a second window gets handle 2; after it is destroyed
a third window gets handle 3, not 2 again; and two paint cycles on window 1 get the
device contexts 1 and 2, although the first has been released in between. -/
theorem handles_are_unique_witness :
    (CreateWindowEx stubPlatform 0 "HelloWorldWindowClass" none 0 0 0 10 10 0 0 0 0
      (runCalls stubPlatform helloProcs 1 helloCalls State.init)).1 = 2 ∧
    (CreateWindowEx stubPlatform 0 "HelloWorldWindowClass" none 0 0 0 10 10 0 0 0 0
      (runCalls stubPlatform helloProcs 1
        [Call.DestroyWindow 2, Call.EndPaint 1 (some ⟨1, 0, ⟨0, 0, 0, 0⟩, 0, 0, []⟩)]
        (CreateWindowEx stubPlatform 0 "HelloWorldWindowClass" none 0 0 0 10 10 0 0 0 0
          (runCalls stubPlatform helloProcs 1 helloCalls State.init)).2)).1 = 3 ∧
    (BeginPaint stubPlatform 1 none
      (runCalls stubPlatform helloProcs 1 helloCalls State.init)).1
      < (BeginPaint stubPlatform 1 none
          (runCalls stubPlatform helloProcs 1
            [Call.DestroyWindow 2, Call.EndPaint 1 (some ⟨1, 0, ⟨0, 0, 0, 0⟩, 0, 0, []⟩)]
            (BeginPaint stubPlatform 1 none
              (runCalls stubPlatform helloProcs 1 helloCalls State.init)).2.2)).1 ∧
    (CreateWindowEx stubPlatform 0 "HelloWorldWindowClass" none 0 0 0 10 10 0 0 0 0
      (runCalls stubPlatform helloProcs 1 helloCalls State.init)).1
      < (CreateWindowEx stubPlatform 0 "HelloWorldWindowClass" none 0 0 0 10 10 0 0 0 0
          (runCalls stubPlatform helloProcs 1
            [Call.DestroyWindow 2, Call.EndPaint 1 (some ⟨1, 0, ⟨0, 0, 0, 0⟩, 0, 0, []⟩)]
            (CreateWindowEx stubPlatform 0 "HelloWorldWindowClass" none 0 0 0 10 10 0 0 0 0
              (runCalls stubPlatform helloProcs 1 helloCalls State.init)).2)).1 :=
  have h := handles_are_unique stubPlatform helloProcs 1 helloCalls
    [Call.DestroyWindow 2, Call.EndPaint 1 (some ⟨1, 0, ⟨0, 0, 0, 0⟩, 0, 0, []⟩)]
    0 0 "HelloWorldWindowClass" "HelloWorldWindowClass" none none 0 0 0 0 10 10 0 0 10 10
    0 0 0 0 0 0 0 0 1 1 none none
  ⟨by decide, by decide,
   (h.2.2.1 (by decide) (by decide) ⟨by decide, by decide⟩).2.1,
   (h.2.1 ⟨by decide, by decide⟩).2.1⟩

/-! ## The message loop -/

theorem messageLoop_succ (P : Platform) (procs : WndProcTable) (depth : Nat) (turns : Nat)
    (msg : MSG) (s : State) :
    messageLoop P procs depth (turns + 1) msg s =
      if (GetMessage msg 0 0 0 s).1 ≠ 0 then
        match (dispatchMessage P procs depth (some (GetMessage msg 0 0 0 s).2.1)
          (GetMessage msg 0 0 0 s).2.2).1 with
        | some _ =>
          messageLoop P procs depth turns (GetMessage msg 0 0 0 s).2.1
            (dispatchMessage P procs depth (some (GetMessage msg 0 0 0 s).2.1)
              (GetMessage msg 0 0 0 s).2.2).2
        | none =>
          LoopResult.cutOff (GetMessage msg 0 0 0 s).2.1
            (dispatchMessage P procs depth (some (GetMessage msg 0 0 0 s).2.1)
              (GetMessage msg 0 0 0 s).2.2).2
      else LoopResult.exited (GetMessage msg 0 0 0 s).2.1 (GetMessage msg 0 0 0 s).2.2 :=
  rfl

/-- A turn of the loop in which `GetMessage` returns `TRUE` with `m` in the caller's
message and the window procedure returns. -/
theorem messageLoop_succ_of_dispatch (P : Platform) (procs : WndProcTable) (depth : Nat)
    (turns : Nat) (msg m : MSG) (s s1 s2 : State) (r : LRESULT)
    (hg : GetMessage msg 0 0 0 s = (TRUE, m, s1))
    (hd : dispatchMessage P procs depth (some m) s1 = (some r, s2)) :
    messageLoop P procs depth (turns + 1) msg s = messageLoop P procs depth turns m s2 := by
  have h1 : (TRUE : BOOL) ≠ 0 := by decide
  rw [messageLoop_succ]
  simp only [hg, hd, h1, ne_eq, not_false_eq_true, if_true]

theorem dispatchMessage_of_no_window (P : Platform) (procs : WndProcTable) (depth : Nat)
    (msg : Option MSG) (s : State) (hw : s.g_windows.1 = []) :
    dispatchMessage P procs depth msg s = (some 0, s) := by
  have hf : ∀ k, s.g_windows.find k = none := by
    intro k
    unfold KMap.find
    rw [hw]
    rfl
  cases depth <;> cases msg <;> simp only [dispatchMessage, DispatchMessage, hf] <;> split <;> rfl

theorem getMessage_of_idle (msg : MSG) (hWnd : HWND) (lo hi : UINT) (s : State)
    (hrun : s.g_quitPosted = false) (hq : s.g_messageQueue = []) (hw : s.g_windows.1 = []) :
    GetMessage msg hWnd lo hi s = (TRUE, msg,
      { s with platformCalls := s.platformCalls ++ [PlatformCall.ProcessPlatformEvents] }) := by
  have hfirst : s.g_windows.first = none := by
    unfold KMap.first
    rw [hw]
    rfl
  simp only [GetMessage, hrun, hq, hfirst]
  rfl

/-- A running state with an empty queue and no window never leaves the loop. -/
theorem messageLoop_of_idle (P : Platform) (procs : WndProcTable) (depth : Nat) (turns : Nat)
    (msg : MSG) (s : State) (hrun : s.g_quitPosted = false) (hq : s.g_messageQueue = [])
    (hw : s.g_windows.1 = []) :
    ∃ t : State, messageLoop P procs depth turns msg s = LoopResult.running msg t ∧
      t.g_quitPosted = false := by
  induction turns generalizing s with
  | zero => exact ⟨s, rfl, hrun⟩
  | succ n ih =>
    have hg := getMessage_of_idle msg 0 0 0 s hrun hq hw
    have hd := dispatchMessage_of_no_window P procs depth (some msg)
      { s with platformCalls := s.platformCalls ++ [PlatformCall.ProcessPlatformEvents] } hw
    rw [messageLoop_succ_of_dispatch P procs depth n msg msg s _ _ 0 hg hd]
    exact ih _ hrun hq hw

theorem messageLoop_add (P : Platform) (procs : WndProcTable) (depth : Nat) (a b : Nat)
    (msg : MSG) (s : State) (m : MSG) (t : State)
    (h : messageLoop P procs depth a msg s = LoopResult.running m t) :
    messageLoop P procs depth (a + b) msg s = messageLoop P procs depth b m t := by
  induction a generalizing msg s with
  | zero =>
    simp only [messageLoop] at h
    cases h
    rw [Nat.zero_add]
  | succ n ih =>
    rw [Nat.succ_add, messageLoop_succ]
    rw [messageLoop_succ] at h
    split
    · rename_i hne
      rw [if_pos hne] at h
      split
      · rename_i r hr
        rw [hr] at h
        exact ih _ _ h
      · rename_i hr
        rw [hr] at h
        cases h
    · rename_i hne
      rw [if_neg hne] at h
      cases h

theorem BeginPaint_frame (P : Platform) (h : HWND) (ps : Option PAINTSTRUCT) (s : State) :
    (BeginPaint P h ps s).2.2.g_windows = s.g_windows ∧
    (BeginPaint P h ps s).2.2.g_messageQueue = s.g_messageQueue := by
  unfold BeginPaint
  split
  · split <;> exact ⟨rfl, rfl⟩
  · exact ⟨rfl, rfl⟩

theorem EndPaint_frame (h : HWND) (ps : Option PAINTSTRUCT) (s : State) :
    (EndPaint h ps s).2.g_windows = s.g_windows ∧
    (EndPaint h ps s).2.g_messageQueue = s.g_messageQueue := by
  unfold EndPaint
  split
  · split
    · split <;> exact ⟨rfl, rfl⟩
    · exact ⟨rfl, rfl⟩
  · exact ⟨rfl, rfl⟩

theorem DrawText_frame (hdc : HDC) (txt : Option String) (n : Int) (rc : Option RECT)
    (fmt : UINT) (s : State) :
    (DrawText hdc txt n rc fmt s).2.g_windows = s.g_windows ∧
    (DrawText hdc txt n rc fmt s).2.g_messageQueue = s.g_messageQueue := by
  unfold DrawText
  split <;> exact ⟨rfl, rfl⟩

/-- The paint branch of `WindowProc` returns 0 and leaves the window table, the queue and
the quit flag as they were. -/
theorem windowProc_paint (P : Platform) (dispatch : Option MSG → State → Option LRESULT × State)
    (ps0 : PAINTSTRUCT) (rect0 : RECT) (h : HWND) (wParam : WPARAM) (lParam : LPARAM)
    (s : State) :
    (runProg P dispatch (WindowProc ps0 rect0 h WM_PAINT wParam lParam) s).1 = some 0 ∧
    (runProg P dispatch (WindowProc ps0 rect0 h WM_PAINT wParam lParam) s).2.g_windows
      = s.g_windows ∧
    (runProg P dispatch (WindowProc ps0 rect0 h WM_PAINT wParam lParam) s).2.g_messageQueue
      = s.g_messageQueue ∧
    (runProg P dispatch (WindowProc ps0 rect0 h WM_PAINT wParam lParam) s).2.g_quitPosted
      = s.g_quitPosted := by
  simp only [WindowProc, runProg, stepCall, if_true, GetClientRect_state]
  refine ⟨trivial, ?_, ?_, ?_⟩
  · rw [(EndPaint_frame _ _ _).1, (DrawText_frame _ _ _ _ _ _).1, (BeginPaint_frame _ _ _ _).1]
  · rw [(EndPaint_frame _ _ _).2, (DrawText_frame _ _ _ _ _ _).2, (BeginPaint_frame _ _ _ _).2]
  · rw [EndPaint_quitPosted, DrawText_quitPosted, BeginPaint_quitPosted]

/-- The close branch of `WindowProc` is `DestroyWindow(hwnd); return 0;`. -/
theorem windowProc_close (P : Platform) (dispatch : Option MSG → State → Option LRESULT × State)
    (ps0 : PAINTSTRUCT) (rect0 : RECT) (h : HWND) (wParam : WPARAM) (lParam : LPARAM)
    (s : State) :
    runProg P dispatch (WindowProc ps0 rect0 h WM_CLOSE wParam lParam) s
      = (some 0, (DestroyWindow h s).2) := by
  have h1 : ¬ WM_CLOSE = WM_PAINT := by decide
  simp only [WindowProc, runProg, stepCall, h1, if_true, if_false]

/-- The destroy branch of `WindowProc` is `PostQuitMessage(0); return 0;`. -/
theorem windowProc_destroy (P : Platform) (dispatch : Option MSG → State → Option LRESULT × State)
    (ps0 : PAINTSTRUCT) (rect0 : RECT) (h : HWND) (wParam : WPARAM) (lParam : LPARAM)
    (s : State) :
    runProg P dispatch (WindowProc ps0 rect0 h WM_DESTROY wParam lParam) s
      = (some 0, PostQuitMessage 0 s) := by
  have h1 : ¬ WM_DESTROY = WM_PAINT := by decide
  have h2 : ¬ WM_DESTROY = WM_CLOSE := by decide
  simp only [WindowProc, runProg, stepCall, h1, h2, if_true, if_false]

theorem dispatchMessage_helloProcs (P : Platform) (depth : Nat) (m : MSG) (s : State)
    (w : WindowData) (hnz : m.hwnd ≠ 0) (hf : s.g_windows.find m.hwnd = some w)
    (hproc : w.wndProc = WindowProc_ptr) :
    dispatchMessage P helloProcs (depth + 1) (some m) s
      = runProg P (dispatchMessage P helloProcs depth)
          (WindowProc ⟨0, 0, ⟨0, 0, 0, 0⟩, 0, 0, []⟩ ⟨0, 0, 0, 0⟩ m.hwnd m.message m.wParam
            m.lParam) s := by
  have hp : WindowProc_ptr ≠ 0 := by decide
  simp only [dispatchMessage, DispatchMessage, hnz, hf, hproc, hp, helloProcs, ne_eq,
    not_false_eq_true, if_true]

/-- A turn of the demo's loop that delivers a paint message to a window of `WindowProc`. -/
theorem messageLoop_paint_turn (P : Platform) (depth : Nat) (msg m : MSG) (rest : List MSG)
    (s : State) (w : WindowData) (hrun : s.g_quitPosted = false)
    (hq : s.g_messageQueue = m :: rest) (hm : m.message = WM_PAINT) (hnz : m.hwnd ≠ 0)
    (hf : s.g_windows.find m.hwnd = some w) (hproc : w.wndProc = WindowProc_ptr) :
    ∃ t : State,
      (∀ n, messageLoop P helloProcs (depth + 1) (n + 1) msg s
        = messageLoop P helloProcs (depth + 1) n m t) ∧
      t.g_quitPosted = false ∧ t.g_messageQueue = rest ∧ t.g_windows = s.g_windows := by
  have hg := getMessage_of_cons msg 0 0 0 s m rest hrun hq
  have hd := dispatchMessage_helloProcs P depth m
    { s with
      g_messageQueue := rest
      platformCalls := s.platformCalls ++ [PlatformCall.ProcessPlatformEvents] } w hnz hf hproc
  rw [hm] at hd
  have hp := windowProc_paint P (dispatchMessage P helloProcs depth)
    ⟨0, 0, ⟨0, 0, 0, 0⟩, 0, 0, []⟩ ⟨0, 0, 0, 0⟩ m.hwnd m.wParam m.lParam
    { s with
      g_messageQueue := rest
      platformCalls := s.platformCalls ++ [PlatformCall.ProcessPlatformEvents] }
  refine ⟨_, fun n => messageLoop_succ_of_dispatch P helloProcs (depth + 1) n msg m s _ _ 0 hg
    (hd.trans (Prod.ext hp.1 rfl)), hp.2.2.2.trans hrun, hp.2.2.1, hp.2.1⟩

/-- A turn of the demo's loop that delivers a close message to a window of `WindowProc`:
the window is destroyed. -/
theorem messageLoop_close_turn (P : Platform) (depth : Nat) (msg m : MSG) (rest : List MSG)
    (s : State) (w : WindowData) (hrun : s.g_quitPosted = false)
    (hq : s.g_messageQueue = m :: rest) (hm : m.message = WM_CLOSE) (hnz : m.hwnd ≠ 0)
    (hf : s.g_windows.find m.hwnd = some w) (hproc : w.wndProc = WindowProc_ptr) :
    ∃ t : State,
      (∀ n, messageLoop P helloProcs (depth + 1) (n + 1) msg s
        = messageLoop P helloProcs (depth + 1) n m t) ∧
      t.g_quitPosted = false ∧ t.g_messageQueue = rest ∧
      t.g_windows = s.g_windows.erase m.hwnd := by
  have hg := getMessage_of_cons msg 0 0 0 s m rest hrun hq
  have hd := dispatchMessage_helloProcs P depth m
    { s with
      g_messageQueue := rest
      platformCalls := s.platformCalls ++ [PlatformCall.ProcessPlatformEvents] } w hnz hf hproc
  rw [hm, windowProc_close] at hd
  refine ⟨_, fun n => messageLoop_succ_of_dispatch P helloProcs (depth + 1) n msg m s _ _ 0 hg hd,
    ?_, ?_, ?_⟩
  · rw [DestroyWindow_quitPosted]
    exact hrun
  · simp only [DestroyWindow, hf]
  · simp only [DestroyWindow, hf]

/-- A turn of the loop that delivers a message while no window is tracked: nothing is
called. -/
theorem messageLoop_no_window_turn (P : Platform) (procs : WndProcTable) (depth : Nat)
    (msg m : MSG) (rest : List MSG) (s : State) (hrun : s.g_quitPosted = false)
    (hq : s.g_messageQueue = m :: rest) (hw : s.g_windows.1 = []) :
    ∃ t : State,
      (∀ n, messageLoop P procs depth (n + 1) msg s = messageLoop P procs depth n m t) ∧
      t.g_quitPosted = false ∧ t.g_messageQueue = rest ∧ t.g_windows.1 = [] := by
  have hg := getMessage_of_cons msg 0 0 0 s m rest hrun hq
  have hd := dispatchMessage_of_no_window P procs depth (some m)
    { s with
      g_messageQueue := rest
      platformCalls := s.platformCalls ++ [PlatformCall.ProcessPlatformEvents] } hw
  exact ⟨_, fun n => messageLoop_succ_of_dispatch P procs depth n msg m s _ _ 0 hg hd,
    hrun, rfl, hw⟩

/-- With `WindowProc` as the procedure of the only window `h`, and a paint, a close and a
destroy message for `h` queued in this order, the loop is still running after any number
of turns: the close message destroys the window, so the destroy message reaches no window
procedure and `PostQuitMessage` is never called. -/
theorem messageLoop_close_then_destroy (P : Platform) (depth turns : Nat) (msg : MSG)
    (s : State) (h : HWND) (w : WindowData) (mp mc md : MSG)
    (hrun : s.g_quitPosted = false) (hq : s.g_messageQueue = [mp, mc, md])
    (hp : mp.hwnd = h ∧ mp.message = WM_PAINT) (hc : mc.hwnd = h ∧ mc.message = WM_CLOSE)
    (hw : s.g_windows.1 = [(h, w)]) (hproc : w.wndProc = WindowProc_ptr) (hnz : h ≠ 0) :
    ∃ (m : MSG) (t : State),
      messageLoop P helloProcs (depth + 1) turns msg s = LoopResult.running m t ∧
      t.g_quitPosted = false := by
  have hfind : s.g_windows.find h = some w := by
    unfold KMap.find
    rw [hw]
    simp [KMap.findRaw]
  obtain ⟨t1, e1, hr1, hq1, hw1⟩ := messageLoop_paint_turn P depth msg mp [mc, md] s w hrun hq
    hp.2 (by rw [hp.1]; exact hnz) (by rw [hp.1]; exact hfind) hproc
  obtain ⟨t2, e2, hr2, hq2, hw2⟩ := messageLoop_close_turn P depth mp mc [md] t1 w hr1 hq1
    hc.2 (by rw [hc.1]; exact hnz) (by rw [hc.1, hw1]; exact hfind) hproc
  have hw2' : t2.g_windows.1 = [] := by
    rw [hw2, hw1, hc.1]
    simp [KMap.erase, KMap.eraseRaw, hw]
  obtain ⟨t3, e3, hr3, hq3, hw3⟩ := messageLoop_no_window_turn P helloProcs (depth + 1) mc md []
    t2 hr2 hq2 hw2'
  cases turns with
  | zero => exact ⟨msg, s, rfl, hrun⟩
  | succ n1 =>
    rw [e1]
    cases n1 with
    | zero => exact ⟨mp, t1, rfl, hr1⟩
    | succ n2 =>
      rw [e2]
      cases n2 with
      | zero => exact ⟨mc, t2, rfl, hr2⟩
      | succ n3 =>
        rw [e3]
        obtain ⟨t, ht, hrt⟩ := messageLoop_of_idle P helloProcs (depth + 1) n3 md t3 hr3 hq3 hw3
        exact ⟨md, t, ht, hrt⟩

/-- A turn of the demo's loop that delivers a destroy message to a window of
`WindowProc`: quit is posted. -/
theorem messageLoop_destroy_turn (P : Platform) (depth : Nat) (msg m : MSG) (rest : List MSG)
    (s : State) (w : WindowData) (hrun : s.g_quitPosted = false)
    (hq : s.g_messageQueue = m :: rest) (hm : m.message = WM_DESTROY) (hnz : m.hwnd ≠ 0)
    (hf : s.g_windows.find m.hwnd = some w) (hproc : w.wndProc = WindowProc_ptr) :
    ∃ t : State,
      (∀ n, messageLoop P helloProcs (depth + 1) (n + 1) msg s
        = messageLoop P helloProcs (depth + 1) n m t) ∧
      t.g_quitPosted = true ∧ t.g_messageQueue = rest ++ [quitMessage 0] := by
  have hg := getMessage_of_cons msg 0 0 0 s m rest hrun hq
  have hd := dispatchMessage_helloProcs P depth m
    { s with
      g_messageQueue := rest
      platformCalls := s.platformCalls ++ [PlatformCall.ProcessPlatformEvents] } w hnz hf hproc
  rw [hm, windowProc_destroy] at hd
  exact ⟨_, fun n => messageLoop_succ_of_dispatch P helloProcs (depth + 1) n msg m s _ _ 0 hg hd,
    rfl, rfl⟩

theorem messageLoop_of_quit (P : Platform) (procs : WndProcTable) (depth turns : Nat)
    (msg : MSG) (s : State) (hquit : s.g_quitPosted = true) :
    messageLoop P procs depth (turns + 1) msg s = LoopResult.exited msg s := by
  have h0 : ¬ (FALSE : BOOL) ≠ 0 := by decide
  rw [messageLoop_succ, getMessage_of_quit msg 0 0 0 s hquit]
  simp only [h0, if_false]

theorem helloLoopStart_facts (P : Platform) (extra : List MSG) :
    (helloLoopStart P extra).g_quitPosted = false ∧
    (helloLoopStart P extra).g_messageQueue = paintMessage 1 :: extra ∧
    ∃ w : WindowData, (helloLoopStart P extra).g_windows.1 = [(1, w)] ∧
      w.wndProc = WindowProc_ptr :=
  ⟨rfl, rfl, _, rfl, rfl⟩

/-- C15 on the code: in the state in which the demo enters its message loop (class
registered with `WindowProc`, window 1 created, shown and updated) with a close message
and then a destroy message for window 1 placed in the queue, the loop has not been left
after any number of turns, on any platform: the quit flag is never set. With the destroy
message alone the loop is left at its third `GetMessage` call and the exit code
`(int)msg.wParam` is 0. -/
theorem hello_loop_never_exits (P : Platform) (depth turns : Nat) :
    (∃ (m : MSG) (t : State),
      messageLoop P helloProcs (depth + 1) turns MSG.zero
          (helloLoopStart P [helloMessage WM_CLOSE, helloMessage WM_DESTROY])
        = LoopResult.running m t ∧
      t.g_quitPosted = false) ∧
    (∃ (m : MSG) (t : State),
      messageLoop P helloProcs (depth + 1) (turns + 3) MSG.zero
          (helloLoopStart P [helloMessage WM_DESTROY])
        = LoopResult.exited m t ∧
      exitCode m = 0) := by
  constructor
  · obtain ⟨hrun, hq, w, hw, hproc⟩ :=
      helloLoopStart_facts P [helloMessage WM_CLOSE, helloMessage WM_DESTROY]
    exact messageLoop_close_then_destroy P depth turns MSG.zero _ 1 w (paintMessage 1)
      (helloMessage WM_CLOSE) (helloMessage WM_DESTROY) hrun hq ⟨rfl, rfl⟩ ⟨rfl, rfl⟩ hw hproc
      (by decide)
  · obtain ⟨hrun, hq, w, hw, hproc⟩ := helloLoopStart_facts P [helloMessage WM_DESTROY]
    have hfind : (helloLoopStart P [helloMessage WM_DESTROY]).g_windows.find 1 = some w := by
      unfold KMap.find
      rw [hw]
      simp [KMap.findRaw]
    obtain ⟨t1, e1, hr1, hq1, hw1⟩ := messageLoop_paint_turn P depth MSG.zero (paintMessage 1)
      [helloMessage WM_DESTROY] _ w hrun hq rfl (by decide) hfind hproc
    obtain ⟨t2, e2, hr2, -⟩ := messageLoop_destroy_turn P depth (paintMessage 1)
      (helloMessage WM_DESTROY) [] t1 w hr1 hq1 rfl (by decide) (by rw [hw1]; exact hfind) hproc
    refine ⟨helloMessage WM_DESTROY, t2, ?_, rfl⟩
    rw [show turns + 3 = (turns + 1 + 1) + 1 from rfl, e1, e2]
    exact messageLoop_of_quit P helloProcs (depth + 1) turns _ t2 hr2

/-! ## `UpdateWindow` -/

/-- C16 on the code: `UpdateWindow` does not look the handle up. In every state and for
every handle, tracked or not, it returns `TRUE` and puts a paint message for that handle
at the end of the queue; at program start, `UpdateWindow` on the unknown handle 7 returns
`TRUE` and queues a message, where `InvalidateRect` on it returns `FALSE` and queues
nothing. -/
theorem updateWindow_ignores_handle_presence (s : State) (h : HWND) :
    UpdateWindow h s
      = (TRUE, { s with g_messageQueue := s.g_messageQueue ++ [paintMessage h] }) ∧
    State.init.g_windows.contains 7 = false ∧
    UpdateWindow 7 State.init = (TRUE, { State.init with g_messageQueue := [paintMessage 7] }) ∧
    (UpdateWindow 7 State.init).1 ≠ FALSE ∧
    InvalidateRect 7 none 0 State.init = (FALSE, State.init) :=
  ⟨rfl, by decide, by decide, by decide, by decide⟩

/-! ## Synthesized paint messages -/

/-- The key of `begin()` is a key of the map and no key is smaller. -/
theorem KMap.first_is_least {α : Type} (m : KMap α) (hne : m.isEmpty = false) :
    ∃ k0 : Nat, m.first = some k0 ∧ m.contains k0 = true ∧ ∀ k ∈ m.keys, k0 ≤ k := by
  obtain ⟨l, hl⟩ := m
  cases l with
  | nil => simp [KMap.isEmpty] at hne
  | cons e t =>
    refine ⟨e.1, rfl, ?_, ?_⟩
    · rw [KMap.contains_iff_mem_keys]
      simp [KMap.keys]
    · intro k hk
      simp only [KMap.keys, List.map_cons, List.mem_cons] at hk
      rcases hk with h | h
      · rw [h]
      · obtain ⟨x, hx, hxk⟩ := List.mem_map.1 h
        have := (List.pairwise_cons.1 hl).1 x hx
        omega

/-- C17: in a running state with an empty queue and at least one tracked window,
`GetMessage` returns `TRUE` and leaves in the queue exactly one message: a `WM_PAINT`
message with zero `wParam` and `lParam` addressed to the first window of the table in
iteration order, which is the tracked window with the smallest handle. The window table
is unchanged, the caller's message is not written, and the next `GetMessage` call
delivers the synthesized message and empties the queue. -/
theorem getMessage_synthesizes_paint (s : State) (lpMsg : MSG) (hWnd : HWND) (lo hi : UINT)
    (hrun : s.g_quitPosted = false) (hempty : s.g_messageQueue = [])
    (hwin : s.g_windows.isEmpty = false) :
    ∃ first : HWND,
      s.g_windows.first = some first ∧ s.g_windows.contains first = true ∧
      (∀ k ∈ s.g_windows.keys, first ≤ k) ∧
      (GetMessage lpMsg hWnd lo hi s).1 = TRUE ∧
      (GetMessage lpMsg hWnd lo hi s).2.1 = lpMsg ∧
      (GetMessage lpMsg hWnd lo hi s).2.2.g_messageQueue = [paintMessage first] ∧
      (paintMessage first).hwnd = first ∧ (paintMessage first).message = WM_PAINT ∧
      (paintMessage first).wParam = 0 ∧ (paintMessage first).lParam = 0 ∧
      (GetMessage lpMsg hWnd lo hi s).2.2.g_windows = s.g_windows ∧
      (GetMessage lpMsg hWnd lo hi (GetMessage lpMsg hWnd lo hi s).2.2).1 = TRUE ∧
      (GetMessage lpMsg hWnd lo hi (GetMessage lpMsg hWnd lo hi s).2.2).2.1
        = paintMessage first ∧
      (GetMessage lpMsg hWnd lo hi (GetMessage lpMsg hWnd lo hi s).2.2).2.2.g_messageQueue
        = [] := by
  obtain ⟨first, hfirst, hcon, hleast⟩ := KMap.first_is_least s.g_windows hwin
  have hg : GetMessage lpMsg hWnd lo hi s = (TRUE, lpMsg,
      { s with
        g_messageQueue := [paintMessage first]
        platformCalls := s.platformCalls ++ [PlatformCall.ProcessPlatformEvents] }) := by
    simp only [GetMessage, hrun, hempty, hfirst]
    rfl
  have hg2 := getMessage_of_cons lpMsg hWnd lo hi
    { s with
      g_messageQueue := [paintMessage first]
      platformCalls := s.platformCalls ++ [PlatformCall.ProcessPlatformEvents] }
    (paintMessage first) [] hrun rfl
  rw [hg, hg2]
  exact ⟨first, hfirst, hcon, hleast, rfl, rfl, rfl, rfl, rfl, rfl, rfl, rfl, rfl, rfl, rfl⟩

/-- C17, with the windows 1 and 2 tracked and nothing queued: the synthesized message is
for window 1. -/
theorem getMessage_synthesizes_paint_witness :
    (GetMessage MSG.zero 0 0 0 helloSecond.2).2.2.g_messageQueue = [paintMessage 1] ∧
    (GetMessage MSG.zero 0 0 0 (GetMessage MSG.zero 0 0 0 helloSecond.2).2.2).2.1
      = paintMessage 1 := by
  obtain ⟨first, hfirst, -, -, -, -, hq, -, -, -, -, -, -, hm, -⟩ :=
    getMessage_synthesizes_paint helloSecond.2 MSG.zero 0 0 0 (by decide) (by decide) (by decide)
  have h1 : helloSecond.2.g_windows.first = some 1 := by decide
  rw [h1] at hfirst
  cases hfirst
  exact ⟨hq, hm⟩

/-! ## The quit message is not delivered -/

theorem runCalls_quitPosted (P : Platform) (procs : WndProcTable) (depth : Nat)
    (calls : List Call) (s : State) (hquit : s.g_quitPosted = true) :
    (runCalls P procs depth calls s).g_quitPosted = true := by
  induction calls generalizing s with
  | nil => exact hquit
  | cons c cs ih =>
    have hstep := stepCall_quitPosted P (dispatchMessage P procs depth)
      (fun m t ht => dispatchMessage_quitPosted P procs depth m t ht) c s hquit
    unfold runCalls
    cases hr : stepCall P (dispatchMessage P procs depth) c s with
    | mk reply s1 =>
      rw [hr] at hstep
      cases reply with
      | none => exact hstep
      | some rep => exact ih s1 hstep

theorem getMessages_of_quit (n : Nat) (lpMsg : MSG) (s : State) (hquit : s.g_quitPosted = true) :
    getMessages n lpMsg s = (List.replicate n (FALSE, lpMsg), s) := by
  induction n with
  | zero => rfl
  | succ k ih =>
    simp only [getMessages, getMessage_of_quit lpMsg 0 0 0 s hquit, ih, List.replicate_succ]

/-- C18: once quit has been posted, `GetMessage` returns `FALSE`, does not write the
caller's message and leaves the state, the queue included, as it was. So after
`PostQuitMessage(code)`, and after any further sequence of calls, no `GetMessage` call
delivers anything: the `WM_QUIT` message stays at the end of the queue through any number
of consecutive `GetMessage` calls, and the loop is left with the message it held before.
With `WindowProc`, a destroy message `m` delivered to a tracked window makes the loop end
with `msg = m`: the exit code is `(int)m.wParam`, while the quit message carrying the
posted code 0 is still queued. -/
theorem quit_message_never_delivered (P : Platform) (procs : WndProcTable) (depth : Nat)
    (calls : List Call) (s : State) (nExitCode : Int) (lpMsg : MSG) (hWnd : HWND) (lo hi : UINT)
    (n : Nat) (m : MSG) (rest : List MSG) (w : WindowData) :
    (s.g_quitPosted = true → GetMessage lpMsg hWnd lo hi s = (FALSE, lpMsg, s)) ∧
    GetMessage lpMsg hWnd lo hi (runCalls P procs depth calls (PostQuitMessage nExitCode s))
      = (FALSE, lpMsg, runCalls P procs depth calls (PostQuitMessage nExitCode s)) ∧
    getMessages n lpMsg (PostQuitMessage nExitCode s)
      = (List.replicate n (FALSE, lpMsg), PostQuitMessage nExitCode s) ∧
    (PostQuitMessage nExitCode s).g_messageQueue.getLast? = some (quitMessage nExitCode) ∧
    (s.g_quitPosted = true →
      messageLoop P procs depth (n + 1) lpMsg s = LoopResult.exited lpMsg s) ∧
    (s.g_quitPosted = false → s.g_messageQueue = m :: rest → m.message = WM_DESTROY →
      m.hwnd ≠ 0 → s.g_windows.find m.hwnd = some w → w.wndProc = WindowProc_ptr →
      ∃ t : State,
        messageLoop P helloProcs (depth + 1) (n + 2) lpMsg s = LoopResult.exited m t ∧
        exitCode m = wParamToInt m.wParam ∧
        t.g_messageQueue.getLast? = some (quitMessage 0)) := by
  have hq : (PostQuitMessage nExitCode s).g_quitPosted = true := rfl
  refine ⟨fun h => getMessage_of_quit _ _ _ _ _ h, ?_, getMessages_of_quit n lpMsg _ hq, ?_,
    fun h => messageLoop_of_quit P procs depth n lpMsg s h, ?_⟩
  · exact getMessage_of_quit _ _ _ _ _ (runCalls_quitPosted P procs depth calls _ hq)
  · simp [PostQuitMessage]
  · intro hrun hqueue hm hnz hf hproc
    obtain ⟨t, e, hr, hqt⟩ := messageLoop_destroy_turn P depth lpMsg m rest s w hrun hqueue hm hnz
      hf hproc
    refine ⟨t, ?_, rfl, ?_⟩
    · rw [show n + 2 = (n + 1) + 1 from rfl, e]
      exact messageLoop_of_quit P helloProcs (depth + 1) n m t hr
    · rw [hqt]
      simp

/-- C18, for the demo's window with a destroy message carrying `wParam = 7` queued: the
handler posts quit with code 0, the loop ends, and the exit code read from `msg.wParam`
is 7. -/
theorem quit_message_never_delivered_witness :
    ∃ t : State,
      messageLoop stubPlatform helloProcs 1 2 MSG.zero
          { helloCreated.2 with g_messageQueue := [destroySeven] }
        = LoopResult.exited destroySeven t ∧
      exitCode destroySeven = 7 ∧
      t.g_messageQueue.getLast? = some (quitMessage 0) :=
  have h := (quit_message_never_delivered stubPlatform helloProcs 0 []
    { helloCreated.2 with g_messageQueue := [destroySeven] } 0 MSG.zero 0 0 0 0 destroySeven []
    { title := "Hello World - Cross Platform Win32", x := 300, y := 300, width := 500,
      height := 400, visible := false, wndProc := WindowProc_ptr, platformWindow := 9999 }).2.2.2.2.2
    (by decide) (by decide) (by decide) (by decide) (by decide) (by decide)
  h

/-! ## `GetMessage` on an empty queue -/

theorem getMessage_of_empty (lpMsg : MSG) (hWnd : HWND) (lo hi : UINT) (s : State)
    (hrun : s.g_quitPosted = false) (hempty : s.g_messageQueue = []) :
    (GetMessage lpMsg hWnd lo hi s).1 = TRUE ∧ (GetMessage lpMsg hWnd lo hi s).2.1 = lpMsg := by
  simp only [GetMessage, hrun, hempty]
  cases s.g_windows.first <;> exact ⟨rfl, rfl⟩

theorem getMessages_of_idle (n : Nat) (lpMsg : MSG) (s : State)
    (hrun : s.g_quitPosted = false) (hempty : s.g_messageQueue = [])
    (hw : s.g_windows.1 = []) :
    (getMessages n lpMsg s).1 = List.replicate n (TRUE, lpMsg) ∧
    SameStatics s (getMessages n lpMsg s).2 := by
  induction n generalizing s with
  | zero => exact ⟨rfl, rfl, rfl, rfl, rfl, rfl, rfl, rfl⟩
  | succ k ih =>
    have hg := getMessage_of_idle lpMsg 0 0 0 s hrun hempty hw
    have h := ih { s with platformCalls := s.platformCalls ++ [PlatformCall.ProcessPlatformEvents] }
      hrun hempty hw
    simp only [getMessages, hg, List.replicate_succ]
    exact ⟨by rw [h.1], h.2⟩

/-- C19: in a running state with an empty queue, `GetMessage` returns `TRUE` and does not
write the caller's message, so the caller holds the message it held before, and the
loop's next `DispatchMessage` is made on that same message. When moreover no window is
tracked, the call changes none of the statics (it only calls `ProcessPlatformEvents`), so
any number of further `GetMessage` calls return `TRUE` with the same message and the
same statics. -/
theorem getMessage_on_empty_queue (P : Platform) (procs : WndProcTable) (depth : Nat)
    (s : State) (lpMsg : MSG) (hWnd : HWND) (lo hi : UINT) (n : Nat)
    (hrun : s.g_quitPosted = false) (hempty : s.g_messageQueue = []) :
    (GetMessage lpMsg hWnd lo hi s).1 = TRUE ∧
    (GetMessage lpMsg hWnd lo hi s).2.1 = lpMsg ∧
    messageLoop P procs depth (n + 1) lpMsg s
      = (match (dispatchMessage P procs depth (some lpMsg) (GetMessage lpMsg 0 0 0 s).2.2).1 with
        | some _ =>
          messageLoop P procs depth n lpMsg
            (dispatchMessage P procs depth (some lpMsg) (GetMessage lpMsg 0 0 0 s).2.2).2
        | none =>
          LoopResult.cutOff lpMsg
            (dispatchMessage P procs depth (some lpMsg) (GetMessage lpMsg 0 0 0 s).2.2).2) ∧
    (s.g_windows.isEmpty = true →
      SameStatics s (GetMessage lpMsg hWnd lo hi s).2.2 ∧
      (GetMessage lpMsg hWnd lo hi s).2.2.platformCalls
        = s.platformCalls ++ [PlatformCall.ProcessPlatformEvents] ∧
      (getMessages n lpMsg s).1 = List.replicate n (TRUE, lpMsg) ∧
      SameStatics s (getMessages n lpMsg s).2) := by
  have hg := getMessage_of_empty lpMsg hWnd lo hi s hrun hempty
  have hg0 := getMessage_of_empty lpMsg 0 0 0 s hrun hempty
  have h1 : (TRUE : BOOL) ≠ 0 := by decide
  refine ⟨hg.1, hg.2, ?_, ?_⟩
  · rw [messageLoop_succ, hg0.1, hg0.2]
    simp only [h1, ne_eq, not_false_eq_true, if_true]
  · intro hnone
    have hw : s.g_windows.1 = [] := by
      unfold KMap.isEmpty at hnone
      exact List.isEmpty_iff.1 hnone
    rw [getMessage_of_idle lpMsg hWnd lo hi s hrun hempty hw]
    exact ⟨⟨rfl, rfl, rfl, rfl, rfl, rfl, rfl⟩, rfl, getMessages_of_idle n lpMsg s hrun hempty hw⟩

/-- C19, at program start (no window, empty queue) with a stale paint message for
handle 9 in the caller's `msg`: three `GetMessage` calls return `TRUE` with that message. -/
theorem getMessage_on_empty_queue_witness :
    (getMessages 3 (paintMessage 9) State.init).1
      = [(TRUE, paintMessage 9), (TRUE, paintMessage 9), (TRUE, paintMessage 9)] ∧
    (GetMessage (paintMessage 9) 0 0 0 helloCreated.2).2.1 = paintMessage 9 :=
  have h := getMessage_on_empty_queue stubPlatform helloProcs 1 State.init (paintMessage 9) 0 0 0 3
    (by decide) (by decide)
  have h2 := getMessage_on_empty_queue stubPlatform helloProcs 1 helloCreated.2 (paintMessage 9)
    0 0 0 3 (by decide) (by decide)
  ⟨(h.2.2.2 (by decide)).2.2.1, h2.2.1⟩

end Win32
